import Mathlib

/-!
Shallow embedding of the snapshot / optimistic-lock / content-update core of
`html-tool-manager`, together with proofs of the spec's claims about it.

The embedding follows the Python source:
  * `src/html_tool_manager/models/snapshot.py`   (constants, `SnapshotType`, `ToolSnapshot`)
  * `src/html_tool_manager/repositories/snapshot_repository.py` (`SnapshotRepository`)
  * `src/html_tool_manager/repositories/tool_repository.py`     (`ToolRepository.update_tool`)
  * `src/html_tool_manager/api/tools.py`         (`update_tool` endpoint)
  * `src/html_tool_manager/api/snapshots.py`     (`restore_snapshot` endpoint)
  * `src/html_tool_manager/core/file_utils.py`   (`atomic_write_file`)
  * `src/html_tool_manager/templates/react_template.py` (`generate_react_html`)

The relational store is modelled as an explicit list of rows in insertion
order; SQLite rowids are modelled by a monotone `nextId` counter.  `ORDER BY
created_at` is modelled as a sort by the key `(created_at, id)`: both query
sites carry an index on `created_at`, and an SQLite index scan yields rows
with equal keys in rowid order.  Timestamps are abstract `Nat` instants.
-/

namespace HtmlToolManager

set_option maxRecDepth 40000

/-! ### Constants (models/snapshot.py) -/

/-- `MAX_SNAPSHOTS_PER_TOOL = 20` (models/snapshot.py). -/
def MAX_SNAPSHOTS_PER_TOOL : Nat := 20

/-- `MAX_CONTENT_SIZE_BYTES = 10 * 1024 * 1024` (models/snapshot.py). -/
def MAX_CONTENT_SIZE_BYTES : Nat := 10 * 1024 * 1024

/-- Python `len(s.encode("utf-8"))`: the UTF-8 byte length of a string. -/
def utf8Len (s : String) : Nat := (s.data.map Char.utf8Size).sum

/-! ### Snapshot data model (models/snapshot.py) -/

/-- `SnapshotType` enum: `AUTO = "auto"`, `MANUAL = "manual"`. -/
inductive SnapshotType where
  | auto
  | manual
deriving DecidableEq, Repr

/-- A row of the `tool_snapshot` table (`ToolSnapshot` in models/snapshot.py).
`id` is the integer primary key, `created_at` an abstract instant. -/
structure ToolSnapshot where
  id : Nat
  tool_id : Nat
  html_content : String
  snapshot_type : SnapshotType
  name : Option String
  created_at : Nat
deriving DecidableEq, Repr

/-- The `tool_snapshot` table: rows in insertion order, plus the next free
primary key (SQLite assigns strictly growing rowids here). -/
structure SnapshotDB where
  rows : List ToolSnapshot
  nextId : Nat
deriving DecidableEq, Repr

def SnapshotDB.empty : SnapshotDB := ⟨[], 1⟩

/-- `ORDER BY created_at ASC` under the `created_at` index: sort by the key
`(created_at, id)` — ties on `created_at` come out in rowid order. -/
def sqlAsc (a b : ToolSnapshot) : Prop :=
  a.created_at < b.created_at ∨ (a.created_at = b.created_at ∧ a.id ≤ b.id)

instance : DecidableRel sqlAsc := fun a b =>
  inferInstanceAs (Decidable (_ ∨ _))

/-- `ORDER BY created_at DESC` under the index: the reversed scan. -/
def sqlDesc (a b : ToolSnapshot) : Prop := sqlAsc b a

instance : DecidableRel sqlDesc := fun a b =>
  inferInstanceAs (Decidable (sqlAsc b a))

instance : IsTotal ToolSnapshot sqlAsc where
  total a b := by
    unfold sqlAsc
    omega

instance : IsTrans ToolSnapshot sqlAsc where
  trans a b c hab hbc := by
    unfold sqlAsc at *
    omega

instance : IsTotal ToolSnapshot sqlDesc where
  total a b := @IsTotal.total ToolSnapshot sqlAsc _ b a

instance : IsTrans ToolSnapshot sqlDesc where
  trans a b c hab hbc := @IsTrans.trans ToolSnapshot sqlAsc _ c b a hbc hab

/-- `WHERE tool_id = ?` over the table, in row order. -/
def SnapshotDB.ownerRows (db : SnapshotDB) (tool_id : Nat) : List ToolSnapshot :=
  db.rows.filter (fun r => r.tool_id == tool_id)

/-- `SnapshotRepository.count_snapshots`: `SELECT count(*) WHERE tool_id = ?`. -/
def SnapshotDB.count_snapshots (db : SnapshotDB) (tool_id : Nat) : Nat :=
  (db.ownerRows tool_id).length

/-- Error raised by `create_snapshot` (`ValueError` for oversize content). -/
inductive SnapshotError where
  | payloadTooLarge
deriving DecidableEq, Repr

/-- `SnapshotRepository.create_snapshot`: validate the UTF-8 size, evict the
oldest rows down to `MAX_SNAPSHOTS_PER_TOOL - 1` (ordered by `created_at ASC`,
limit `count - threshold`, deleted by `id IN old_ids`), then insert the new
snapshot with `created_at = now`. -/
def SnapshotDB.create_snapshot (db : SnapshotDB) (tool_id : Nat) (html_content : String)
    (snapshot_type : SnapshotType) (name : Option String) (now : Nat) :
    Except SnapshotError (ToolSnapshot × SnapshotDB) :=
  if utf8Len html_content > MAX_CONTENT_SIZE_BYTES then
    .error .payloadTooLarge
  else
    let count := db.count_snapshots tool_id
    let threshold := MAX_SNAPSHOTS_PER_TOOL - 1
    let rows1 : List ToolSnapshot :=
      if count > threshold then
        let to_delete := count - threshold
        let old_ids := (((db.ownerRows tool_id).insertionSort sqlAsc).take to_delete).map
          (fun r => r.id)
        db.rows.filter (fun r => !(old_ids.contains r.id))
      else db.rows
    let snapshot : ToolSnapshot :=
      ⟨db.nextId, tool_id, html_content, snapshot_type, name, now⟩
    .ok (snapshot, ⟨rows1 ++ [snapshot], db.nextId + 1⟩)

/-- `SnapshotRepository.get_snapshots_by_tool`: `WHERE tool_id = ? ORDER BY
created_at DESC LIMIT ?`. -/
def SnapshotDB.get_snapshots_by_tool (db : SnapshotDB) (tool_id : Nat) (limit : Nat := 100) :
    List ToolSnapshot :=
  (((db.ownerRows tool_id).insertionSort sqlDesc).take limit)

/-- `SnapshotRepository.get_snapshot`: `WHERE id = ? AND tool_id = ?`, first row. -/
def SnapshotDB.get_snapshot (db : SnapshotDB) (tool_id snapshot_id : Nat) :
    Option ToolSnapshot :=
  db.rows.find? (fun r => r.id == snapshot_id && r.tool_id == tool_id)

/-- `SnapshotRepository.delete_snapshot`: look the row up via `get_snapshot`
(owner check included); if absent return `none`, else delete that row. -/
def SnapshotDB.delete_snapshot (db : SnapshotDB) (tool_id snapshot_id : Nat) :
    Option ToolSnapshot × SnapshotDB :=
  match db.get_snapshot tool_id snapshot_id with
  | none => (none, db)
  | some s => (some s, ⟨db.rows.filter (fun r => !(r.id == s.id)), db.nextId⟩)

/-- `SnapshotRepository.delete_all_by_tool`. -/
def SnapshotDB.delete_all_by_tool (db : SnapshotDB) (tool_id : Nat) :
    Nat × SnapshotDB :=
  (db.count_snapshots tool_id, ⟨db.rows.filter (fun r => !(r.tool_id == tool_id)), db.nextId⟩)

/-- One `create_snapshot` request, for reasoning about call sequences. -/
structure CreateReq where
  tool_id : Nat
  html_content : String
  snapshot_type : SnapshotType
  name : Option String
  now : Nat
deriving DecidableEq, Repr

/-- Run a sequence of `create_snapshot` calls; a `ValueError` leaves the
database unchanged (the transaction never starts). -/
def runCreates (db : SnapshotDB) : List CreateReq → SnapshotDB
  | [] => db
  | r :: rs =>
    match db.create_snapshot r.tool_id r.html_content r.snapshot_type r.name r.now with
    | .error _ => runCreates db rs
    | .ok (_, db1) => runCreates db1 rs

/-! ### Well-formedness of the snapshot table

Rows carry strictly increasing primary keys (SQLite assigns growing rowids),
all below `nextId`. -/

def SnapshotDB.WF (db : SnapshotDB) : Prop :=
  db.rows.Pairwise (fun a b => a.id < b.id) ∧ ∀ r ∈ db.rows, r.id < db.nextId

/-- The new snapshot row inserted by a successful `create_snapshot`. -/
def newSnap (db : SnapshotDB) (tool_id : Nat) (html_content : String)
    (snapshot_type : SnapshotType) (name : Option String) (now : Nat) : ToolSnapshot :=
  ⟨db.nextId, tool_id, html_content, snapshot_type, name, now⟩

/-- The table rows left after the retention-eviction phase of `create_snapshot`. -/
def evictedRows (db : SnapshotDB) (tool_id : Nat) : List ToolSnapshot :=
  if db.count_snapshots tool_id > MAX_SNAPSHOTS_PER_TOOL - 1 then
    db.rows.filter (fun r =>
      !((((db.ownerRows tool_id).insertionSort sqlAsc).take
          (db.count_snapshots tool_id - (MAX_SNAPSHOTS_PER_TOOL - 1))).map
        (fun r => r.id)).contains r.id)
  else db.rows

/-! ### Single-owner chronological runs (claim C8) -/

/-- The snapshots a request sequence would create, with primary keys assigned
from `startId` upward (the order SQLite hands out rowids). -/
def seqSnaps (startId : Nat) : List CreateReq → List ToolSnapshot
  | [] => []
  | r :: rs =>
    ⟨startId, r.tool_id, r.html_content, r.snapshot_type, r.name, r.now⟩ :: seqSnaps (startId + 1) rs

/-- A snapshot table holding the history of a single owner in chronological
order: all rows owned by `tid`, primary keys strictly increasing and below
`nextId`, `created_at` nondecreasing, and within the retention bound. -/
structure ChronState (db : SnapshotDB) (tid : Nat) : Prop where
  owner : ∀ r ∈ db.rows, r.tool_id = tid
  chron : db.rows.Pairwise (fun a b => a.id < b.id ∧ a.created_at ≤ b.created_at)
  bound : db.rows.length ≤ MAX_SNAPSHOTS_PER_TOOL
  idlt : ∀ r ∈ db.rows, r.id < db.nextId

/-! ### Tool data model and optimistic locking
(models/tool.py, core/exceptions.py, repositories/tool_repository.py) -/

/-- `ToolType` enum: `HTML = "html"`, `REACT = "react"`. -/
inductive ToolType where
  | html
  | react
deriving DecidableEq, Repr

/-- A row of the `tool` table (`Tool` in models/tool.py): id, name,
description, tags, filepath, tool_type, created_at, updated_at.

`version` — Modelled from the spec: the optimistic-lock version column is
used by `ToolRepository.update_tool` (`tool.version`) and asserted by the
test suite (a freshly created tool has `version == 1`), but its field
declaration is missing from the `models/tool.py` present in this tree; per
the spec it is "an integer counter, starts at 1". -/
structure Tool where
  id : Nat
  name : String
  description : Option String
  tags : List String
  filepath : String
  tool_type : ToolType
  version : Nat
  created_at : Nat
  updated_at : Nat
deriving DecidableEq, Repr

/-- Modelled from the spec: the `tool` row constructed on creation
(`ToolRepository.create_tool_with_content` inserts a validated `Tool`); the
`version` column's start value is missing from this tree's model file, and
the spec says it "starts at 1".  `created_at`/`updated_at` default to the
creation instant. -/
def mkCreatedTool (id : Nat) (name : String) (description : Option String)
    (tags : List String) (filepath : String) (tool_type : ToolType)
    (now : Nat) : Tool :=
  ⟨id, name, description, tags, filepath, tool_type, 1, now, now⟩

/-- `OptimisticLockError` (core/exceptions.py): carries the current and the
expected version. -/
structure OptimisticLockError where
  current_version : Nat
  expected_version : Nat
deriving DecidableEq, Repr

/-- The metadata fields a caller may set on update, with
`model_dump(exclude_unset=True)` semantics: `none` = field not present in
the request, hence untouched.  (`html_content` and `filepath` are excluded
by the endpoint, tools.py line 177.) -/
structure ToolUpdateData where
  name : Option String
  description : Option (Option String)
  tags : Option (List String)
  tool_type : Option ToolType
deriving DecidableEq, Repr

/-- The row after `update_tool`'s mutation steps: `setattr(tool, key, value)`
over the dumped update fields, then `updated_at = now`, then `version += 1`.
`id`, `filepath` (excluded from the dump by the endpoint) and `created_at`
are untouched. -/
def updatedTool (t : Tool) (u : ToolUpdateData) (now : Nat) : Tool :=
  ⟨t.id, u.name.getD t.name, u.description.getD t.description,
    u.tags.getD t.tags, t.filepath, u.tool_type.getD t.tool_type,
    t.version + 1, t.created_at, now⟩

/-- The `tool` table. -/
structure ToolDB where
  tools : List Tool
deriving DecidableEq, Repr

/-- `ToolRepository.get_tool`: `session.get(Tool, tool_id)`. -/
def ToolDB.get_tool (db : ToolDB) (tool_id : Nat) : Option Tool :=
  db.tools.find? (fun t => t.id == tool_id)

/-- Outcome of `ToolRepository.update_tool`: `None` when the tool is absent,
a raised `OptimisticLockError` on version mismatch, or the updated row. -/
inductive UpdateResult where
  | notFound
  | conflict (e : OptimisticLockError)
  | updated (t : Tool)
deriving DecidableEq, Repr

/-- `ToolRepository.update_tool` with optimistic locking: load the row; if
absent return `None`; if `tool.version != expected_version` raise
`OptimisticLockError(tool.version, expected_version)` (before any mutation);
otherwise apply the dumped update fields, set `updated_at` to now, increment
`version` by one, and persist. -/
def ToolDB.update_tool (db : ToolDB) (tool_id : Nat) (tool_update : ToolUpdateData)
    (expected_version : Nat) (now : Nat) : UpdateResult × ToolDB :=
  match db.get_tool tool_id with
  | none => (.notFound, db)
  | some tool =>
    if tool.version ≠ expected_version then
      (.conflict ⟨tool.version, expected_version⟩, db)
    else
      (.updated (updatedTool tool tool_update now),
        ⟨db.tools.map (fun t =>
          if t.id == tool_id then updatedTool tool tool_update now else t)⟩)

/-! ### React template (templates/react_template.py) -/

/-- The fixed text of `generate_react_html`'s f-string before
`{transformed_code}` (one summand per source line; `\x7b`/`\x7d` are the
literal braces, `\x27` the literal apostrophe). -/
def reactTemplatePrefix : String :=
  "<!DOCTYPE html>\n"
  ++ "<html lang=\"ja\">\n"
  ++ "<head>\n"
  ++ "    <meta charset=\"UTF-8\">\n"
  ++ "    <meta name=\"viewport\" content=\"width=device-width, initial-scale=1.0\">\n"
  ++ "    <title>React Tool</title>\n"
  ++ "    <!-- Tailwind CSS (SRI なし: CORS 非対応のため) -->\n"
  ++ "    <script src=\"https://cdn.tailwindcss.com/3.4.1\"></script>\n"
  ++ "    <!-- React 18 & ReactDOM -->\n"
  ++ "    <script\n"
  ++ "        crossorigin\n"
  ++ "        src=\"https://unpkg.com/react@18.2.0/umd/react.production.min.js\"\n"
  ++ "        integrity=\"sha384-tMH8h3BGESGckSAVGZ82T9n90ztNXxvdwvdM6UoR56cYcf+0iGXBliJ29D+wZ/x8\"></script>\n"
  ++ "    <script\n"
  ++ "        crossorigin\n"
  ++ "        src=\"https://unpkg.com/react-dom@18.2.0/umd/react-dom.production.min.js\"\n"
  ++ "        integrity=\"sha384-bm7MnzvK++ykSwVJ2tynSE5TRdN+xL418osEVF2DE/L/gfWHj91J2Sphe582B1Bh\"></script>\n"
  ++ "    <!-- Babel Standalone for JSX transformation -->\n"
  ++ "    <script\n"
  ++ "        src=\"https://unpkg.com/@babel/standalone@7.23.5/babel.min.js\"\n"
  ++ "        integrity=\"sha384-1qlE7MZPM2pHD/pBZCU/yB8UCP52RYL8bge/qNdfNBCWToySp8/M+JL2waXU4hjJ\"\n"
  ++ "        crossorigin=\"anonymous\"></script>\n"
  ++ "    <style>\n"
  ++ "        body \x7b\n"
  ++ "            margin: 0;\n"
  ++ "            font-family: system-ui, -apple-system, sans-serif;\n"
  ++ "        \x7d\n"
  ++ "    </style>\n"
  ++ "</head>\n"
  ++ "<body>\n"
  ++ "    <div id=\"root\"></div>\n"
  ++ "    <script type=\"text/babel\" data-type=\"module\">\n"
  ++ "        // React を UMD グローバルから取得\n"
  ++ "        const React = window.React;\n"
  ++ "        const \x7b\n"
  ++ "            // 基本 hooks\n"
  ++ "            useState, useEffect, useContext, useReducer,\n"
  ++ "            useCallback, useMemo, useRef,\n"
  ++ "            // 追加 hooks\n"
  ++ "            useLayoutEffect, useImperativeHandle, useDebugValue,\n"
  ++ "            // React 18 hooks\n"
  ++ "            useTransition, useDeferredValue, useId, useSyncExternalStore, useInsertionEffect\n"
  ++ "        \x7d = React;\n"
  ++ "        const ReactDOM = window.ReactDOM;\n"
  ++ "\n"

/-- The fixed text of the f-string after `{transformed_code}`. -/
def reactTemplateSuffix : String :=
  "\n"
  ++ "\n"
  ++ "        // コンポーネントをレンダリング\n"
  ++ "        const rootElement = document.getElementById(\x27root\x27);\n"
  ++ "        const root = ReactDOM.createRoot(rootElement);\n"
  ++ "        root.render(React.createElement(App));\n"
  ++ "    </script>\n"
  ++ "</body>\n"
  ++ "</html>"

/-- `generate_react_html` (react_template.py): wrap the JSX code in the full
HTML document, after `_transform_imports_exports`.  That helper rewrites
import/export statements with Python regular expressions; no claim depends
on its behaviour, so the whole development is parameterized over it: every
result below holds for an arbitrary `transform : String → String`. -/
def generate_react_html (transform : String → String) (jsx_code : String) : String :=
  reactTemplatePrefix ++ transform jsx_code ++ reactTemplateSuffix

/-- Python `pat in s` on char lists: some suffix starts with `pat`. -/
def containsAux (pat : List Char) : List Char → Bool
  | [] => pat.isEmpty
  | c :: cs => pat.isPrefixOf (c :: cs) || containsAux pat cs

/-- Python `pat in s` for strings. -/
def strContains (s pat : String) : Bool :=
  containsAux pat.data s.data

/-! ### File system state and the content-update endpoint (api/tools.py) -/

/-- On-disk tool files: association from path to content (newest first). -/
structure FS where
  files : List (String × String)
deriving DecidableEq, Repr

/-- `open(filepath).read()`: `none` models `FileNotFoundError`. -/
def FS.read (fs : FS) (p : String) : Option String :=
  fs.files.lookup p

/-- A successful full-content write to `p` (the success path of
`atomic_write_file`, whose failure behaviour is modelled separately below). -/
def FS.write (fs : FS) (p c : String) : FS :=
  ⟨(p, c) :: fs.files⟩

/-- The `ToolCreate` payload sent to the update endpoint, with
`exclude_unset` semantics (`none` = field absent from the request). -/
structure ToolCreateReq where
  name : Option String
  description : Option (Option String)
  tags : Option (List String)
  tool_type : Option ToolType
  html_content : Option String
deriving DecidableEq, Repr

/-- Endpoint status: 200 with the updated tool, 404, 400 (invalid filepath),
or 409 (`OptimisticLockError` surfaced with both versions). -/
inductive ApiStatus where
  | ok (t : Tool)
  | notFound
  | badRequest
  | conflict (e : OptimisticLockError)
deriving DecidableEq, Repr

/-- Full outcome of one endpoint call: status, the three state components,
and the list of AUTO snapshots the call created (the successful
`create_snapshot` results, in call order — an observation of the call
sites, not extra state). -/
structure ApiUpdateResult where
  status : ApiStatus
  tdb : ToolDB
  sdb : SnapshotDB
  fs : FS
  autoSnaps : List ToolSnapshot
deriving Repr

/-- The `PUT /tools/{tool_id}` endpoint (`update_tool` in api/tools.py):

1. load the tool, 404 if absent;
2. if `html_content` is present: wrap it with `generate_react_html` when the
   request's `tool_type` is REACT; validate the stored filepath
   (`is_path_within_base`, modelled by the `pathOk` oracle since it resolves
   real paths on the host); read the current file content — on
   `FileNotFoundError` skip snapshotting; if the content differs from the
   final payload, `create_snapshot(tool_id, current, AUTO)`, swallowing the
   oversize `ValueError`; then write the new payload;
3. apply the metadata update through `ToolRepository.update_tool`.

`expected_version` — Modelled from the spec: the repository call requires a
keyword-only `expected_version`, and the test suite sends a required
`version` field with the request, but the call site in this tree's
api/tools.py omits the argument; per the spec the caller's expected version
is passed through to the optimistic-lock guard. -/
def api_update_tool (transform : String → String) (pathOk : String → Bool)
    (tdb : ToolDB) (sdb : SnapshotDB) (fs : FS) (tool_id : Nat)
    (tool_data : ToolCreateReq) (expected_version : Nat) (now : Nat) :
    ApiUpdateResult :=
  match tdb.get_tool tool_id with
  | none => ⟨.notFound, tdb, sdb, fs, []⟩
  | some tool =>
    match tool_data.html_content with
    | none =>
      let u : ToolUpdateData :=
        ⟨tool_data.name, tool_data.description, tool_data.tags, tool_data.tool_type⟩
      match tdb.update_tool tool_id u expected_version now with
      | (.notFound, tdb1) => ⟨.notFound, tdb1, sdb, fs, []⟩
      | (.conflict e, tdb1) => ⟨.conflict e, tdb1, sdb, fs, []⟩
      | (.updated t, tdb1) => ⟨.ok t, tdb1, sdb, fs, []⟩
    | some hc =>
      let final_html :=
        if tool_data.tool_type = some .react then generate_react_html transform hc
        else hc
      if !(pathOk tool.filepath) then ⟨.badRequest, tdb, sdb, fs, []⟩
      else
        let snapStep : SnapshotDB × List ToolSnapshot :=
          match fs.read tool.filepath with
          | none => (sdb, [])
          | some current =>
            if current ≠ final_html then
              match sdb.create_snapshot tool_id current .auto none now with
              | .error _ => (sdb, [])
              | .ok (s, sdb1) => (sdb1, [s])
            else (sdb, [])
        let fs1 := fs.write tool.filepath final_html
        let u : ToolUpdateData :=
          ⟨tool_data.name, tool_data.description, tool_data.tags, tool_data.tool_type⟩
        match tdb.update_tool tool_id u expected_version now with
        | (.notFound, tdb1) => ⟨.notFound, tdb1, snapStep.1, fs1, snapStep.2⟩
        | (.conflict e, tdb1) => ⟨.conflict e, tdb1, snapStep.1, fs1, snapStep.2⟩
        | (.updated t, tdb1) => ⟨.ok t, tdb1, snapStep.1, fs1, snapStep.2⟩

/-- The 10 MiB + 1 byte ASCII payload used to exercise the size limit. -/
def oversizePayload : String :=
  String.mk (List.replicate (MAX_CONTENT_SIZE_BYTES + 1) (Char.ofNat 97))

/-! ### `atomic_write_file` (core/file_utils.py) under failures -/

/-- How one `atomic_write_file` call can go: a normal run, an exception
raised by one of its fallible operations (for the ones inside the `try`
block, `unlinkOk` says whether the cleanup `os.unlink` succeeds — its
`OSError` is swallowed), or a hard process crash at a given point (no
handler runs). -/
inductive AwfScenario where
  | success
  | raiseMkstemp
  | raiseWrite (unlinkOk : Bool)
  | raiseChmod (unlinkOk : Bool)
  | raiseReplace (unlinkOk : Bool)
  | crashAfterMkstemp
  | crashAfterWrite
  | crashAfterReplace
deriving DecidableEq, Repr

inductive AwfExit where
  | normal
  | raised
  | crashed
deriving DecidableEq, Repr

/-- Observable outcome: how the call ended, the target file (content and
permission bits, `none` = absent), and whether a temp file is left behind. -/
structure AwfResult where
  exit : AwfExit
  target : Option (String × Nat)
  tempRemains : Bool
deriving DecidableEq, Repr

/-- `atomic_write_file(filepath, content, mode)` (core/file_utils.py):
`tempfile.mkstemp` runs before the `try` block (its failure creates
nothing); the temp-file write, `os.chmod` and `os.replace` run inside it,
and on `BaseException` the handler best-effort-unlinks the temp file and
re-raises; `os.replace` is atomic, so the target either keeps its prior
content or holds exactly the new content with the requested mode; a hard
crash runs no handler, so a temp file created before the crash remains. -/
def atomic_write_file (target : Option (String × Nat)) (content : String)
    (mode : Nat) : AwfScenario → AwfResult
  | .success => ⟨.normal, some (content, mode), false⟩
  | .raiseMkstemp => ⟨.raised, target, false⟩
  | .raiseWrite u => ⟨.raised, target, !u⟩
  | .raiseChmod u => ⟨.raised, target, !u⟩
  | .raiseReplace u => ⟨.raised, target, !u⟩
  | .crashAfterMkstemp => ⟨.crashed, target, true⟩
  | .crashAfterWrite => ⟨.crashed, target, true⟩
  | .crashAfterReplace => ⟨.crashed, some (content, mode), false⟩

/-- Whether the cleanup unlink succeeded in the scenario (vacuously true
when no cleanup ran). -/
def unlinkSucceeded : AwfScenario → Bool
  | .raiseWrite u => u
  | .raiseChmod u => u
  | .raiseReplace u => u
  | _ => true

/-! ### Restore from snapshot (api/snapshots.py, `restore_snapshot`) -/

/-- The endpoint's string-level filepath check (snapshots.py line 165):
`not filepath or ".." in filepath or not filepath.startswith("static/tools/")`. -/
def filepathSuspicious (p : String) : Bool :=
  (p == "") || strContains p ".." || !(List.isPrefixOf "static/tools/".data p.data)

/-- Outcome of one restore call: HTTP-ish status, the snapshot table, the
file system, the AUTO snapshots created, and the plain (truncate-and-write,
`open(filepath, "w")`) file writes the call performed, in order — the
restore path does not go through `atomic_write_file`. -/
structure RestoreResult where
  status : ApiStatus
  sdb : SnapshotDB
  fs : FS
  autoSnaps : List ToolSnapshot
  plainWrites : List (String × String)
deriving Repr

/-- `POST /tools/{tool_id}/snapshots/{snapshot_id}/restore`
(`restore_snapshot` in api/snapshots.py): load tool and snapshot (owner
checked), 404 if either is absent; reject suspicious filepaths and paths
whose resolved real path escapes `static/tools` (the `os.path.realpath`
containment is the `realOk` oracle); read the current file content
(`FileNotFoundError` → 404); wrap the snapshot payload with
`generate_react_html` when the tool is REACT and the payload does not
contain `"react.production.min.js"`; write it to the tool's file with a
plain `open(filepath, "w")` write; only after that write, create an AUTO
snapshot named `"復元前の自動保存"` holding the pre-restore content,
swallowing the oversize `ValueError`. -/
def restore_snapshot (transform : String → String) (realOk : String → Bool)
    (tdb : ToolDB) (sdb : SnapshotDB) (fs : FS) (tool_id snapshot_id now : Nat) :
    RestoreResult :=
  match tdb.get_tool tool_id with
  | none => ⟨.notFound, sdb, fs, [], []⟩
  | some tool =>
    match sdb.get_snapshot tool_id snapshot_id with
    | none => ⟨.notFound, sdb, fs, [], []⟩
    | some snapshot =>
      if filepathSuspicious tool.filepath then ⟨.badRequest, sdb, fs, [], []⟩
      else if !(realOk tool.filepath) then ⟨.badRequest, sdb, fs, [], []⟩
      else
        match fs.read tool.filepath with
        | none => ⟨.notFound, sdb, fs, [], []⟩
        | some current =>
          let content_to_write :=
            if tool.tool_type = ToolType.react
                ∧ strContains snapshot.html_content "react.production.min.js" = false then
              generate_react_html transform snapshot.html_content
            else snapshot.html_content
          let fs1 := fs.write tool.filepath content_to_write
          match sdb.create_snapshot tool_id current .auto (some "復元前の自動保存") now with
          | .error _ => ⟨.ok tool, sdb, fs1, [], [(tool.filepath, content_to_write)]⟩
          | .ok (s, sdb1) => ⟨.ok tool, sdb1, fs1, [s], [(tool.filepath, content_to_write)]⟩

/-- `open(path, "w").write(content)` interrupted after `k` characters: the
file was truncated first, so it holds a prefix of the new content — a plain
write is not all-or-nothing. -/
def plainWriteCrash (content : String) (k : Nat) : String :=
  String.mk (content.data.take k)

/-! ### Theorems -/

theorem wf_empty : SnapshotDB.empty.WF := by
  constructor
  · exact List.Pairwise.nil
  · intro r hr
    exact absurd hr (List.not_mem_nil r)

/-- Deleting the ids of the first `d` rows of the `created_at`-sorted view
removes exactly `d` rows (primary keys are unique). -/
theorem length_filter_evict (S : List ToolSnapshot) (d : Nat)
    (hnd : (S.map (fun r => r.id)).Nodup) :
    (S.filter (fun r =>
      !((((S.insertionSort sqlAsc).take d).map (fun r => r.id)).contains r.id))).length
      = S.length - d := by
  set L := S.insertionSort sqlAsc with hLdef
  set old := (L.take d).map (fun r => r.id) with holdDef
  set p : ToolSnapshot → Bool := fun r => !(old.contains r.id) with hpDef
  have hperm : L.Perm S := List.perm_insertionSort _ _
  have hpf : (S.filter p).Perm (L.filter p) := List.Perm.filter _ hperm.symm
  have hndsorted : (L.map (fun r => r.id)).Nodup :=
    (List.Perm.nodup_iff (hperm.map (fun r => r.id))).mpr hnd
  have hdisj : old.Disjoint ((L.drop d).map (fun r => r.id)) := by
    have h2 : ((L.take d).map (fun r => r.id) ++ (L.drop d).map (fun r => r.id)).Nodup := by
      rw [← List.map_append, List.take_append_drop]
      exact hndsorted
    exact (List.nodup_append.mp h2).2.2
  have hA : (L.take d).filter p = [] := by
    refine List.filter_eq_nil_iff.mpr ?_
    intro a ha
    have hmem : a.id ∈ old := by
      rw [holdDef]
      exact List.mem_map_of_mem _ ha
    simp [hpDef, hmem]
  have hB : (L.drop d).filter p = L.drop d := by
    refine List.filter_eq_self.mpr ?_
    intro b hb
    have hnm : b.id ∉ old := by
      intro hin
      exact hdisj hin (List.mem_map_of_mem _ hb)
    simp [hpDef, hnm]
  have hsplit : L.filter p = (L.take d).filter p ++ (L.drop d).filter p := by
    rw [← List.filter_append, List.take_append_drop]
  rw [hpf.length_eq, hsplit, hA, hB, List.nil_append, List.length_drop,
    hperm.length_eq]

theorem create_snapshot_ok (db : SnapshotDB) (tool_id : Nat) (c : String)
    (st : SnapshotType) (nm : Option String) (now : Nat)
    (hsz : ¬ utf8Len c > MAX_CONTENT_SIZE_BYTES) :
    db.create_snapshot tool_id c st nm now =
      .ok (newSnap db tool_id c st nm now,
        ⟨evictedRows db tool_id ++ [newSnap db tool_id c st nm now], db.nextId + 1⟩) := by
  unfold SnapshotDB.create_snapshot newSnap evictedRows
  rw [if_neg hsz]

theorem create_snapshot_err (db : SnapshotDB) (tool_id : Nat) (c : String)
    (st : SnapshotType) (nm : Option String) (now : Nat)
    (hsz : utf8Len c > MAX_CONTENT_SIZE_BYTES) :
    db.create_snapshot tool_id c st nm now = .error .payloadTooLarge := by
  unfold SnapshotDB.create_snapshot
  rw [if_pos hsz]

/-- Unique primary keys over the rows of one owner. -/
theorem ownerRows_nodup_ids (db : SnapshotDB) (tid : Nat)
    (hwf : db.rows.Pairwise (fun a b => a.id < b.id)) :
    ((db.ownerRows tid).map (fun r => r.id)).Nodup := by
  have hsub : (db.ownerRows tid).Sublist db.rows := List.filter_sublist _
  have hp : (db.ownerRows tid).Pairwise (fun a b => a.id < b.id) :=
    List.Pairwise.sublist hsub hwf
  rw [List.Nodup, List.pairwise_map]
  exact hp.imp (fun h => Nat.ne_of_lt h)

/-- After the eviction phase, the owner has exactly
`min (count) (MAX - 1)` rows. -/
theorem count_evictedRows (db : SnapshotDB) (tid : Nat)
    (hwf : db.rows.Pairwise (fun a b => a.id < b.id)) :
    ((evictedRows db tid).filter (fun r => r.tool_id == tid)).length
      = min (db.count_snapshots tid) (MAX_SNAPSHOTS_PER_TOOL - 1) := by
  unfold evictedRows
  split
  · next hgt =>
    have hcomm : ∀ (p q : ToolSnapshot → Bool) (l : List ToolSnapshot),
        (l.filter p).filter q = (l.filter q).filter p := by
      intro p q l
      simp [List.filter_filter, Bool.and_comm]
    rw [hcomm]
    have := length_filter_evict (db.ownerRows tid)
      (db.count_snapshots tid - (MAX_SNAPSHOTS_PER_TOOL - 1))
      (ownerRows_nodup_ids db tid hwf)
    rw [SnapshotDB.ownerRows] at this ⊢
    rw [this]
    have hlen : (List.filter (fun r => r.tool_id == tid) db.rows).length
        = db.count_snapshots tid := rfl
    rw [hlen]
    omega
  · next hle =>
    have hlen : (List.filter (fun r => r.tool_id == tid) db.rows).length
        = db.count_snapshots tid := rfl
    rw [hlen]
    omega

/-- A successful `create_snapshot` leaves its owner with
`min (count + 1) MAX_SNAPSHOTS_PER_TOOL` rows. -/
theorem count_create_self (db : SnapshotDB) (tid : Nat) (c : String)
    (st : SnapshotType) (nm : Option String) (now : Nat) (s : ToolSnapshot)
    (db2 : SnapshotDB)
    (hwf : db.rows.Pairwise (fun a b => a.id < b.id))
    (h : db.create_snapshot tid c st nm now = .ok (s, db2)) :
    db2.count_snapshots tid
      = min (db.count_snapshots tid + 1) MAX_SNAPSHOTS_PER_TOOL := by
  by_cases hsz : utf8Len c > MAX_CONTENT_SIZE_BYTES
  · rw [create_snapshot_err db tid c st nm now hsz] at h
    exact absurd h (by simp)
  · rw [create_snapshot_ok db tid c st nm now hsz] at h
    have hdb2 : db2 = ⟨evictedRows db tid ++ [newSnap db tid c st nm now], db.nextId + 1⟩ := by
      cases h
      rfl
    subst hdb2
    have hsnap : ((newSnap db tid c st nm now).tool_id == tid) = true := by
      simp [newSnap]
    show ((evictedRows db tid ++ [newSnap db tid c st nm now]).filter
        (fun r => r.tool_id == tid)).length = _
    rw [List.filter_append, List.length_append, count_evictedRows db tid hwf]
    simp only [List.filter_cons, hsnap, if_pos, List.filter_nil]
    have hmax : 1 ≤ MAX_SNAPSHOTS_PER_TOOL := by
      unfold MAX_SNAPSHOTS_PER_TOOL
      omega
    simp only [List.length_singleton]
    omega

/-- A successful `create_snapshot` never grows another owner's row count. -/
theorem count_create_other (db : SnapshotDB) (tid : Nat) (c : String)
    (st : SnapshotType) (nm : Option String) (now : Nat) (s : ToolSnapshot)
    (db2 : SnapshotDB) (t2 : Nat) (hne : t2 ≠ tid)
    (h : db.create_snapshot tid c st nm now = .ok (s, db2)) :
    db2.count_snapshots t2 ≤ db.count_snapshots t2 := by
  by_cases hsz : utf8Len c > MAX_CONTENT_SIZE_BYTES
  · rw [create_snapshot_err db tid c st nm now hsz] at h
    exact absurd h (by simp)
  · rw [create_snapshot_ok db tid c st nm now hsz] at h
    have hdb2 : db2 = ⟨evictedRows db tid ++ [newSnap db tid c st nm now], db.nextId + 1⟩ := by
      cases h
      rfl
    subst hdb2
    have hsnap : ((newSnap db tid c st nm now).tool_id == t2) = false := by
      simp [newSnap]
      exact fun hx => hne hx.symm
    show ((evictedRows db tid ++ [newSnap db tid c st nm now]).filter
        (fun r => r.tool_id == t2)).length ≤ _
    rw [List.filter_append]
    simp only [List.filter_cons, hsnap, List.filter_nil, List.append_nil,
      Bool.false_eq_true, if_false]
    have hsub : (evictedRows db tid).Sublist db.rows := by
      unfold evictedRows
      split
      · exact List.filter_sublist _
      · exact List.Sublist.refl _
    exact List.Sublist.length_le (List.Sublist.filter _ hsub)

/-- A successful `create_snapshot` preserves well-formedness. -/
theorem wf_create (db : SnapshotDB) (tid : Nat) (c : String)
    (st : SnapshotType) (nm : Option String) (now : Nat) (s : ToolSnapshot)
    (db2 : SnapshotDB) (hwf : db.WF)
    (h : db.create_snapshot tid c st nm now = .ok (s, db2)) : db2.WF := by
  by_cases hsz : utf8Len c > MAX_CONTENT_SIZE_BYTES
  · rw [create_snapshot_err db tid c st nm now hsz] at h
    exact absurd h (by simp)
  · rw [create_snapshot_ok db tid c st nm now hsz] at h
    have hdb2 : db2 = ⟨evictedRows db tid ++ [newSnap db tid c st nm now], db.nextId + 1⟩ := by
      cases h
      rfl
    subst hdb2
    have hsub : (evictedRows db tid).Sublist db.rows := by
      unfold evictedRows
      split
      · exact List.filter_sublist _
      · exact List.Sublist.refl _
    constructor
    · rw [List.pairwise_append]
      refine ⟨List.Pairwise.sublist hsub hwf.1, List.pairwise_singleton _ _, ?_⟩
      intro a ha b hb
      have hb2 : b = newSnap db tid c st nm now := List.mem_singleton.mp hb
      subst hb2
      exact hwf.2 a (hsub.mem ha)
    · intro r hr
      rcases List.mem_append.mp hr with hr1 | hr2
      · exact Nat.lt_succ_of_lt (hwf.2 r (hsub.mem hr1))
      · have : r = newSnap db tid c st nm now := List.mem_singleton.mp hr2
        subst this
        exact Nat.lt_succ_self _

/-- Invariant carried along any sequence of `create_snapshot` calls. -/
theorem runCreates_bound (reqs : List CreateReq) (db : SnapshotDB)
    (hwf : db.WF) (hb : ∀ t, db.count_snapshots t ≤ MAX_SNAPSHOTS_PER_TOOL) :
    (runCreates db reqs).WF ∧
      ∀ t, (runCreates db reqs).count_snapshots t ≤ MAX_SNAPSHOTS_PER_TOOL := by
  induction reqs generalizing db with
  | nil => exact ⟨hwf, hb⟩
  | cons r rs ih =>
    cases hc : db.create_snapshot r.tool_id r.html_content r.snapshot_type r.name r.now with
    | error e =>
      have hrw : runCreates db (r :: rs) = runCreates db rs := by
        simp only [runCreates, hc]
      rw [hrw]
      exact ih db hwf hb
    | ok p =>
      obtain ⟨s, db1⟩ := p
      have hrw : runCreates db (r :: rs) = runCreates db1 rs := by
        simp only [runCreates, hc]
      rw [hrw]
      refine ih db1 (wf_create db _ _ _ _ _ s db1 hwf hc) ?_
      intro t
      by_cases ht : t = r.tool_id
      · subst ht
        rw [count_create_self db _ _ _ _ _ s db1 hwf.1 hc]
        omega
      · exact le_trans
          (count_create_other db _ _ _ _ _ s db1 t ht hc) (hb t)

/-- C1: for every owner (tool) and every finite sequence of `create_snapshot`
calls (any mix of AUTO and MANUAL, any owners, any payloads), the number of
snapshots stored for that owner never exceeds `MAX_SNAPSHOTS_PER_TOOL = 20` at
any observation point: `create_snapshot` evicts old snapshots before
inserting, so the post-insert count is at most the maximum.  (Every prefix of
a call sequence is itself a call sequence, so the universal quantification
over `reqs` covers every observation point.) -/
theorem C1_retention_bound (reqs : List CreateReq) (t : Nat) :
    (runCreates SnapshotDB.empty reqs).count_snapshots t ≤ MAX_SNAPSHOTS_PER_TOOL :=
  (runCreates_bound reqs SnapshotDB.empty wf_empty
    (fun _ => by
      show (SnapshotDB.empty.ownerRows _).length ≤ _
      simp [SnapshotDB.ownerRows, SnapshotDB.empty, MAX_SNAPSHOTS_PER_TOOL])).2 t

theorem seqSnaps_length (startId : Nat) (reqs : List CreateReq) :
    (seqSnaps startId reqs).length = reqs.length := by
  induction reqs generalizing startId with
  | nil => rfl
  | cons r rs ih => simp [seqSnaps, ih]

theorem chron_sorted_asc {l : List ToolSnapshot}
    (h : l.Pairwise (fun a b => a.id < b.id ∧ a.created_at ≤ b.created_at)) :
    l.Sorted sqlAsc :=
  h.imp (fun hx => by
    unfold sqlAsc
    omega)

/-- Inserting an element that every list element precedes puts it at the end. -/
theorem orderedInsert_eq_append (r : ToolSnapshot → ToolSnapshot → Prop)
    [DecidableRel r] (a : ToolSnapshot) (l : List ToolSnapshot)
    (h : ∀ b ∈ l, ¬ r a b) : l.orderedInsert r a = l ++ [a] := by
  induction l with
  | nil => rfl
  | cons b t ih =>
    have hb : ¬ r a b := h b (List.mem_cons_self b t)
    simp only [List.orderedInsert, if_neg hb]
    rw [ih (fun x hx => h x (List.mem_cons_of_mem b hx))]
    rfl

/-- Sorting a chronologically stored single-owner table by
`created_at DESC` just reverses it. -/
theorem insertionSort_desc_eq_reverse (l : List ToolSnapshot)
    (h : l.Pairwise (fun a b => a.id < b.id ∧ a.created_at ≤ b.created_at)) :
    l.insertionSort sqlDesc = l.reverse := by
  induction l with
  | nil => rfl
  | cons a t ih =>
    have hall : ∀ b ∈ t.insertionSort sqlDesc, ¬ sqlDesc a b := by
      intro b hb
      have hbt : b ∈ t := (List.mem_insertionSort sqlDesc).mp hb
      have hrel := (List.pairwise_cons.mp h).1 b hbt
      show ¬ sqlAsc b a
      unfold sqlAsc
      omega
    show List.orderedInsert sqlDesc a (t.insertionSort sqlDesc) = _
    rw [orderedInsert_eq_append sqlDesc a _ hall,
      ih (List.pairwise_cons.mp h).2, List.reverse_cons]

/-- Removing the ids of the first `d` rows from a table with unique ids
drops exactly those rows. -/
theorem filter_not_take_ids (l : List ToolSnapshot) (d : Nat)
    (hnd : (l.map (fun r => r.id)).Nodup) :
    l.filter (fun r => !(((l.take d).map (fun r => r.id)).contains r.id)) = l.drop d := by
  set old := (l.take d).map (fun r => r.id) with holdDef
  set p : ToolSnapshot → Bool := fun r => !(old.contains r.id) with hpDef
  have hdisj : old.Disjoint ((l.drop d).map (fun r => r.id)) := by
    have h2 : ((l.take d).map (fun r => r.id) ++ (l.drop d).map (fun r => r.id)).Nodup := by
      rw [← List.map_append, List.take_append_drop]
      exact hnd
    exact (List.nodup_append.mp h2).2.2
  have hA : (l.take d).filter p = [] := by
    refine List.filter_eq_nil_iff.mpr ?_
    intro a ha
    have hmem : a.id ∈ old := by
      rw [holdDef]
      exact List.mem_map_of_mem _ ha
    simp [hpDef, hmem]
  have hB : (l.drop d).filter p = l.drop d := by
    refine List.filter_eq_self.mpr ?_
    intro b hb
    have hnm : b.id ∉ old := fun hin => hdisj hin (List.mem_map_of_mem _ hb)
    simp [hpDef, hnm]
  have hsplit : l.filter p = (l.take d).filter p ++ (l.drop d).filter p := by
    rw [← List.filter_append, List.take_append_drop]
  rw [hsplit, hA, hB, List.nil_append]

theorem ownerRows_eq_rows (db : SnapshotDB) (tid : Nat)
    (hown : ∀ r ∈ db.rows, r.tool_id = tid) :
    db.ownerRows tid = db.rows :=
  List.filter_eq_self.mpr (fun r hr => by simp [hown r hr])

/-- On a chronological single-owner table, eviction keeps the most recent
`MAX_SNAPSHOTS_PER_TOOL - 1` rows (a suffix). -/
theorem evictedRows_chron (db : SnapshotDB) (tid : Nat) (hcs : ChronState db tid) :
    evictedRows db tid
      = db.rows.drop (db.rows.length - (MAX_SNAPSHOTS_PER_TOOL - 1)) := by
  have hown := ownerRows_eq_rows db tid hcs.owner
  have hcount : db.count_snapshots tid = db.rows.length := by
    show (db.ownerRows tid).length = _
    rw [hown]
  have hnd : (db.rows.map (fun r => r.id)).Nodup := by
    rw [List.Nodup, List.pairwise_map]
    exact hcs.chron.imp (fun h => Nat.ne_of_lt h.1)
  unfold evictedRows
  split
  · next hgt =>
    rw [hown, (chron_sorted_asc hcs.chron).insertionSort_eq, hcount]
    exact filter_not_take_ids db.rows _ hnd
  · next hle =>
    rw [hcount] at hle
    rw [Nat.sub_eq_zero_of_le (by omega), List.drop_zero]

/-- One successful `create_snapshot` on a chronological single-owner table:
the result is the previous rows plus the new row, truncated on the left to
the retention bound. -/
theorem create_step_chron (db : SnapshotDB) (tid : Nat) (c : String)
    (st : SnapshotType) (nm : Option String) (now : Nat)
    (hcs : ChronState db tid)
    (hsz : ¬ utf8Len c > MAX_CONTENT_SIZE_BYTES) :
    db.create_snapshot tid c st nm now
      = .ok (newSnap db tid c st nm now,
          ⟨(db.rows ++ [newSnap db tid c st nm now]).drop
              ((db.rows.length + 1) - MAX_SNAPSHOTS_PER_TOOL),
            db.nextId + 1⟩) := by
  rw [create_snapshot_ok db tid c st nm now hsz]
  have hd0 : db.rows.length - (MAX_SNAPSHOTS_PER_TOOL - 1)
      = (db.rows.length + 1) - MAX_SNAPSHOTS_PER_TOOL := by
    have : 1 ≤ MAX_SNAPSHOTS_PER_TOOL := by
      unfold MAX_SNAPSHOTS_PER_TOOL
      omega
    omega
  rw [evictedRows_chron db tid hcs, hd0,
    List.drop_append_of_le_length (by omega)]

/-- A single-owner run with nondecreasing wall-clock stamps and in-bound
payload sizes keeps exactly the most recent `MAX_SNAPSHOTS_PER_TOOL` rows:
the final table is the full creation history truncated on the left. -/
theorem runCreates_chron (reqs : List CreateReq) (tid : Nat) (db : SnapshotDB)
    (hcs : ChronState db tid)
    (h1 : ∀ r ∈ reqs, r.tool_id = tid)
    (h2 : ∀ r ∈ reqs, ¬ utf8Len r.html_content > MAX_CONTENT_SIZE_BYTES)
    (h3 : reqs.Pairwise (fun a b => a.now ≤ b.now))
    (h4 : ∀ x ∈ db.rows, ∀ r ∈ reqs, x.created_at ≤ r.now) :
    (runCreates db reqs).rows
      = (db.rows ++ seqSnaps db.nextId reqs).drop
          ((db.rows.length + reqs.length) - MAX_SNAPSHOTS_PER_TOOL)
    ∧ (runCreates db reqs).nextId = db.nextId + reqs.length
    ∧ ChronState (runCreates db reqs) tid := by
  have hM : MAX_SNAPSHOTS_PER_TOOL = 20 := rfl
  induction reqs generalizing db with
  | nil =>
    refine ⟨?_, rfl, hcs⟩
    have hb := hcs.bound
    show db.rows = (db.rows ++ seqSnaps db.nextId []).drop _
    rw [show seqSnaps db.nextId [] = [] from rfl, List.append_nil, List.length_nil,
      Nat.sub_eq_zero_of_le (by omega), List.drop_zero]
  | cons r rs ih =>
    have htid : r.tool_id = tid := h1 r (List.mem_cons_self r rs)
    subst htid
    have hsz : ¬ utf8Len r.html_content > MAX_CONTENT_SIZE_BYTES :=
      h2 r (List.mem_cons_self r rs)
    have hstep := create_step_chron db r.tool_id r.html_content r.snapshot_type
      r.name r.now hcs hsz
    have hrw : runCreates db (r :: rs)
        = runCreates
            ⟨(db.rows ++ [newSnap db r.tool_id r.html_content r.snapshot_type r.name r.now]).drop
                ((db.rows.length + 1) - MAX_SNAPSHOTS_PER_TOOL),
              db.nextId + 1⟩ rs := by
      simp only [runCreates, hstep]
    have hApw : (db.rows ++ [newSnap db r.tool_id r.html_content r.snapshot_type r.name r.now]).Pairwise
        (fun a b => a.id < b.id ∧ a.created_at ≤ b.created_at) := by
      rw [List.pairwise_append]
      refine ⟨hcs.chron, List.pairwise_singleton _ _, ?_⟩
      intro a ha b hb
      have hb2 := List.mem_singleton.mp hb
      subst hb2
      exact ⟨hcs.idlt a ha, h4 a ha r (List.mem_cons_self r rs)⟩
    have hcs1 : ChronState
        ⟨(db.rows ++ [newSnap db r.tool_id r.html_content r.snapshot_type r.name r.now]).drop
            ((db.rows.length + 1) - MAX_SNAPSHOTS_PER_TOOL),
          db.nextId + 1⟩ r.tool_id := by
      constructor
      · intro x hx
        rcases List.mem_append.mp (List.mem_of_mem_drop hx) with hx1 | hx2
        · exact hcs.owner x hx1
        · rw [List.mem_singleton.mp hx2]
          rfl
      · exact List.Pairwise.sublist (List.drop_sublist _ _) hApw
      · have hb := hcs.bound
        show (List.drop _ _).length ≤ _
        rw [List.length_drop, List.length_append, List.length_singleton]
        omega
      · intro x hx
        rcases List.mem_append.mp (List.mem_of_mem_drop hx) with hx1 | hx2
        · exact Nat.lt_succ_of_lt (hcs.idlt x hx1)
        · rw [List.mem_singleton.mp hx2]
          exact Nat.lt_succ_self _
    have h4' : ∀ x ∈ (db.rows ++ [newSnap db r.tool_id r.html_content r.snapshot_type r.name r.now]).drop
        ((db.rows.length + 1) - MAX_SNAPSHOTS_PER_TOOL), ∀ r2 ∈ rs, x.created_at ≤ r2.now := by
      intro x hx r2 hr2
      rcases List.mem_append.mp (List.mem_of_mem_drop hx) with hx1 | hx2
      · exact h4 x hx1 r2 (List.mem_cons_of_mem r hr2)
      · rw [List.mem_singleton.mp hx2]
        exact (List.pairwise_cons.mp h3).1 r2 hr2
    obtain ⟨ihrows, ihnext, ihcs⟩ := ih
      ⟨(db.rows ++ [newSnap db r.tool_id r.html_content r.snapshot_type r.name r.now]).drop
          ((db.rows.length + 1) - MAX_SNAPSHOTS_PER_TOOL),
        db.nextId + 1⟩
      hcs1
      (fun r2 hr2 => h1 r2 (List.mem_cons_of_mem r hr2))
      (fun r2 hr2 => h2 r2 (List.mem_cons_of_mem r hr2))
      (List.pairwise_cons.mp h3).2
      h4'
    rw [hrw]
    refine ⟨?_, ?_, ihcs⟩
    · rw [ihrows]
      show ((db.rows ++ [newSnap db r.tool_id r.html_content r.snapshot_type r.name r.now]).drop
            ((db.rows.length + 1) - MAX_SNAPSHOTS_PER_TOOL)
          ++ seqSnaps (db.nextId + 1) rs).drop _ = _
      rw [← @List.drop_append_of_le_length ToolSnapshot
          (db.rows ++ [newSnap db r.tool_id r.html_content r.snapshot_type r.name r.now])
          (seqSnaps (db.nextId + 1) rs)
          ((db.rows.length + 1) - MAX_SNAPSHOTS_PER_TOOL)
          (by rw [List.length_append, List.length_singleton]; omega),
        List.drop_drop]
      have hAT : (db.rows ++ [newSnap db r.tool_id r.html_content r.snapshot_type r.name r.now])
          ++ seqSnaps (db.nextId + 1) rs
          = db.rows ++ seqSnaps db.nextId (r :: rs) := by
        rw [List.append_assoc]
        rfl
      rw [hAT]
      have hb := hcs.bound
      have harith : (db.rows.length + 1) - MAX_SNAPSHOTS_PER_TOOL
            + ((((db.rows ++ [newSnap db r.tool_id r.html_content r.snapshot_type r.name r.now]).drop
                ((db.rows.length + 1) - MAX_SNAPSHOTS_PER_TOOL)).length + rs.length)
              - MAX_SNAPSHOTS_PER_TOOL)
          = (db.rows.length + (r :: rs).length) - MAX_SNAPSHOTS_PER_TOOL := by
        rw [List.length_drop, List.length_append, List.length_singleton, List.length_cons]
        omega
      rw [harith]
    · rw [ihnext]
      show db.nextId + 1 + rs.length = db.nextId + (r :: rs).length
      rw [List.length_cons]
      omega

theorem chron_empty (tid : Nat) : ChronState SnapshotDB.empty tid := by
  constructor
  · intro r hr
    exact absurd hr (List.not_mem_nil r)
  · exact List.Pairwise.nil
  · show (0 : Nat) ≤ MAX_SNAPSHOTS_PER_TOOL
    exact Nat.zero_le _
  · intro r hr
    exact absurd hr (List.not_mem_nil r)

/-- On a chronological single-owner table, `get_snapshots_by_tool` (the
`list_snapshots` query, default limit 100) returns the rows newest first. -/
theorem get_snapshots_by_tool_chron (db : SnapshotDB) (tid : Nat)
    (hcs : ChronState db tid) :
    db.get_snapshots_by_tool tid 100 = db.rows.reverse := by
  have hb := hcs.bound
  have hM : MAX_SNAPSHOTS_PER_TOOL = 20 := rfl
  unfold SnapshotDB.get_snapshots_by_tool
  rw [ownerRows_eq_rows db tid hcs.owner, insertionSort_desc_eq_reverse _ hcs.chron,
    List.take_of_length_le (by rw [List.length_reverse]; omega)]

/-- C8 (amended): when `create_snapshot` must evict to stay within the
maximum, it deletes the oldest snapshots first, ordered by `created_at`
ascending with ties broken by oldest id first (the eviction query in the
embedding); consequently, for any number of creations for one owner with
nondecreasing wall-clock stamps and in-bound payloads, the surviving
snapshots are exactly the `MAX_SNAPSHOTS_PER_TOOL` most recent by
`created_at` — the full creation history with all but the last
`MAX_SNAPSHOTS_PER_TOOL` entries dropped — and `list_snapshots` returns them
newest first (`created_at` descending). -/
theorem C8_eviction_order (reqs : List CreateReq) (tid : Nat)
    (h1 : ∀ r ∈ reqs, r.tool_id = tid)
    (h2 : ∀ r ∈ reqs, ¬ utf8Len r.html_content > MAX_CONTENT_SIZE_BYTES)
    (h3 : reqs.Pairwise (fun a b => a.now ≤ b.now)) :
    (runCreates SnapshotDB.empty reqs).rows
      = (seqSnaps 1 reqs).drop (reqs.length - MAX_SNAPSHOTS_PER_TOOL)
    ∧ (runCreates SnapshotDB.empty reqs).get_snapshots_by_tool tid 100
      = ((seqSnaps 1 reqs).drop (reqs.length - MAX_SNAPSHOTS_PER_TOOL)).reverse := by
  obtain ⟨hrows, hnext, hcs⟩ := runCreates_chron reqs tid SnapshotDB.empty
    (chron_empty tid) h1 h2 h3
    (by
      intro x hx
      exact absurd hx (List.not_mem_nil x))
  have hsimp : (SnapshotDB.empty.rows ++ seqSnaps SnapshotDB.empty.nextId reqs).drop
        ((SnapshotDB.empty.rows.length + reqs.length) - MAX_SNAPSHOTS_PER_TOOL)
      = (seqSnaps 1 reqs).drop (reqs.length - MAX_SNAPSHOTS_PER_TOOL) := by
    show (([] : List ToolSnapshot) ++ seqSnaps 1 reqs).drop
        ((List.length ([] : List ToolSnapshot) + reqs.length) - MAX_SNAPSHOTS_PER_TOOL) = _
    rw [List.nil_append, List.length_nil, Nat.zero_add]
  rw [hsimp] at hrows
  exact ⟨hrows, by rw [get_snapshots_by_tool_chron _ tid hcs, hrows]⟩

/-- Witness for C8: three manual creations for owner 5 survive in full and
are listed newest first. -/
theorem C8_eviction_order_witness :
    (runCreates SnapshotDB.empty
        [⟨5, "a", .manual, some "s1", 0⟩, ⟨5, "b", .manual, some "s2", 1⟩,
          ⟨5, "c", .manual, some "s3", 2⟩]).rows
      = (seqSnaps 1
          [⟨5, "a", .manual, some "s1", 0⟩, ⟨5, "b", .manual, some "s2", 1⟩,
            ⟨5, "c", .manual, some "s3", 2⟩]).drop
          ((3 : Nat) - MAX_SNAPSHOTS_PER_TOOL)
    ∧ (runCreates SnapshotDB.empty
        [⟨5, "a", .manual, some "s1", 0⟩, ⟨5, "b", .manual, some "s2", 1⟩,
          ⟨5, "c", .manual, some "s3", 2⟩]).get_snapshots_by_tool 5 100
      = ((seqSnaps 1
          [⟨5, "a", .manual, some "s1", 0⟩, ⟨5, "b", .manual, some "s2", 1⟩,
            ⟨5, "c", .manual, some "s3", 2⟩]).drop
          ((3 : Nat) - MAX_SNAPSHOTS_PER_TOOL)).reverse :=
  C8_eviction_order
    [⟨5, "a", .manual, some "s1", 0⟩, ⟨5, "b", .manual, some "s2", 1⟩,
      ⟨5, "c", .manual, some "s3", 2⟩] 5
    (by decide) (by decide) (by decide)

/-- Counterexample to C8 as stated: with maximum N = 20 and N + k = 21
creations for owner 9 (k = 1), the claim says the surviving snapshots are
exactly the k = 1 most recent; the code keeps 20, not 1. -/
theorem C8_counterexample :
    ¬ (SnapshotDB.count_snapshots
        (runCreates SnapshotDB.empty
          ((List.range 21).map (fun i => ⟨9, "", .auto, none, i⟩))) 9 = 1) := by
  decide

/-- C9: `get_snapshot(owner_id, snapshot_id)` returns a snapshot only when
its stored owner reference equals `owner_id`; a snapshot id that exists but
belongs to a different owner yields NotFound (`None`), and `delete_snapshot`
applies the same owner check (it deletes nothing and returns `None`).
Primary keys are unique in any reachable table, which the `hwf` hypothesis
records. -/
theorem C9_owner_scoping (db : SnapshotDB) (tid sid : Nat)
    (hwf : db.rows.Pairwise (fun a b => a.id < b.id)) :
    (∀ s, db.get_snapshot tid sid = some s →
      s.tool_id = tid ∧ s.id = sid ∧ s ∈ db.rows)
    ∧ (∀ s ∈ db.rows, s.id = sid → s.tool_id ≠ tid →
      db.get_snapshot tid sid = none ∧ db.delete_snapshot tid sid = (none, db)) := by
  have hnd : (db.rows.map (fun r => r.id)).Nodup := by
    rw [List.Nodup, List.pairwise_map]
    exact hwf.imp (fun h => Nat.ne_of_lt h)
  constructor
  · intro s hs
    have hp := List.find?_some hs
    have hmem := List.mem_of_find?_eq_some hs
    rw [Bool.and_eq_true, beq_iff_eq, beq_iff_eq] at hp
    exact ⟨hp.2, hp.1, hmem⟩
  · intro s hsmem hsid howner
    have hnone : db.get_snapshot tid sid = none := by
      rw [SnapshotDB.get_snapshot, List.find?_eq_none]
      intro x hx
      rw [Bool.and_eq_true, beq_iff_eq, beq_iff_eq]
      rintro ⟨hxid, hxtid⟩
      have hxs : x = s :=
        List.inj_on_of_nodup_map hnd hx hsmem (by rw [hxid, hsid])
      subst hxs
      exact howner hxtid
    refine ⟨hnone, ?_⟩
    rw [SnapshotDB.delete_snapshot, hnone]

/-- Witness for C9: snapshot id 1 belongs to tool 10; queried and deleted
under tool 11 both operations report NotFound. -/
theorem C9_owner_scoping_witness :
    SnapshotDB.get_snapshot ⟨[⟨1, 10, "x", .auto, none, 0⟩], 2⟩ 11 1 = none
    ∧ SnapshotDB.delete_snapshot ⟨[⟨1, 10, "x", .auto, none, 0⟩], 2⟩ 11 1
      = (none, ⟨[⟨1, 10, "x", .auto, none, 0⟩], 2⟩) :=
  (C9_owner_scoping ⟨[⟨1, 10, "x", .auto, none, 0⟩], 2⟩ 11 1 (by decide)).2
    ⟨1, 10, "x", .auto, none, 0⟩ (by decide) (by decide) (by decide)

/-- Persisting an updated row replaces it in place: if `find?` located `tool`,
it locates the replacement afterwards. -/
theorem find?_persist (l : List Tool) (tool_id : Nat) (tool tool2 : Tool)
    (hfind : l.find? (fun t => t.id == tool_id) = some tool)
    (hid : tool2.id = tool_id) :
    (l.map (fun t => if t.id == tool_id then tool2 else t)).find?
      (fun t => t.id == tool_id) = some tool2 := by
  induction l with
  | nil => exact absurd hfind (by simp)
  | cons a t ih =>
    rw [List.map_cons]
    by_cases ha : (a.id == tool_id) = true
    · rw [if_pos ha]
      exact List.find?_cons_of_pos _ (by rw [beq_iff_eq]; exact hid)
    · rw [if_neg ha]
      have heq1 : (a :: t.map (fun x => if (x.id == tool_id) = true then tool2 else x)).find?
            (fun x => x.id == tool_id)
          = (t.map (fun x => if (x.id == tool_id) = true then tool2 else x)).find?
            (fun x => x.id == tool_id) :=
        List.find?_cons_of_neg _ ha
      have heq2 : (a :: t).find? (fun x => x.id == tool_id)
          = t.find? (fun x => x.id == tool_id) :=
        List.find?_cons_of_neg _ ha
      rw [heq2] at hfind
      rw [heq1]
      exact ih hfind

/-- C3: updating an existing tool with a stale `expected_version` raises
`OptimisticLockError` carrying the current stored version and the caller's
expected version, and leaves the table unchanged (the returned state is the
input state: the check runs before any mutation).  Reusing an
already-consumed `expected_version` fails with `current_version` equal to
the incremented value. -/
theorem C3_stale_version_rejected (db : ToolDB) (tool_id : Nat)
    (u : ToolUpdateData) (ev now : Nat) (tool : Tool)
    (hget : db.get_tool tool_id = some tool) :
    (tool.version ≠ ev →
      db.update_tool tool_id u ev now = (.conflict ⟨tool.version, ev⟩, db))
    ∧ (∀ u2 now2 t2 db2,
      db.update_tool tool_id u ev now = (.updated t2, db2) →
      db2.update_tool tool_id u2 ev now2 = (.conflict ⟨tool.version + 1, ev⟩, db2)) := by
  constructor
  · intro hne
    simp only [ToolDB.update_tool, hget, if_pos hne]
  · intro u2 now2 t2 db2 hsucc
    simp only [ToolDB.update_tool, hget] at hsucc
    by_cases hv : tool.version ≠ ev
    · rw [if_pos hv] at hsucc
      exact absurd (congrArg Prod.fst hsucc) (by simp)
    · rw [if_neg hv] at hsucc
      have hev : tool.version = ev := not_ne_iff.mp hv
      rw [Prod.mk.injEq] at hsucc
      obtain ⟨ht2, hdb2⟩ := hsucc
      have ht2eq : updatedTool tool u now = t2 := UpdateResult.updated.inj ht2
      have hid : tool.id = tool_id := by
        have := List.find?_some hget
        rwa [beq_iff_eq] at this
      have hget2 : db2.get_tool tool_id = some t2 := by
        rw [← hdb2]
        show (db.tools.map (fun t =>
          if (t.id == tool_id) = true then updatedTool tool u now else t)).find?
            (fun t => t.id == tool_id) = some t2
        rw [ht2eq]
        exact find?_persist db.tools tool_id tool t2 hget
          (by rw [← ht2eq]; exact hid)
      have hvt2 : t2.version = tool.version + 1 := by
        rw [← ht2eq]
        rfl
      have hvne : t2.version ≠ ev := by
        rw [hvt2]
        omega
      have hfinal : db2.update_tool tool_id u2 ev now2
          = (.conflict ⟨t2.version, ev⟩, db2) := by
        simp only [ToolDB.update_tool, hget2, if_pos hvne]
      rw [hfinal, hvt2]

theorem snapStep_snd (o : Option String) (final : String) (sdb : SnapshotDB)
    (tool_id now : Nat) :
    (match o with
      | none => (sdb, ([] : List ToolSnapshot))
      | some current =>
        if current ≠ final then
          match sdb.create_snapshot tool_id current .auto none now with
          | .error _ => (sdb, [])
          | .ok (s, sdb1) => (sdb1, [s])
        else (sdb, [])).2
    = (match o with
      | none => []
      | some current =>
        if current ≠ final then
          match sdb.create_snapshot tool_id current .auto none now with
          | .error _ => []
          | .ok (s, _) => [s]
        else []) := by
  cases o with
  | none => rfl
  | some current =>
    by_cases h : current ≠ final
    · simp only [if_pos h]
      rcases sdb.create_snapshot tool_id current .auto none now with e | ⟨s, d⟩ <;> rfl
    · simp only [if_neg h]

theorem snapStep_fst (o : Option String) (final : String) (sdb : SnapshotDB)
    (tool_id now : Nat) :
    (match o with
      | none => (sdb, ([] : List ToolSnapshot))
      | some current =>
        if current ≠ final then
          match sdb.create_snapshot tool_id current .auto none now with
          | .error _ => (sdb, [])
          | .ok (s, sdb1) => (sdb1, [s])
        else (sdb, [])).1
    = (match o with
      | none => sdb
      | some current =>
        if current ≠ final then
          match sdb.create_snapshot tool_id current .auto none now with
          | .error _ => sdb
          | .ok (_, sdb1) => sdb1
        else sdb) := by
  cases o with
  | none => rfl
  | some current =>
    by_cases h : current ≠ final
    · simp only [if_pos h]
      rcases sdb.create_snapshot tool_id current .auto none now with e | ⟨s, d⟩ <;> rfl
    · simp only [if_neg h]

/-- How one content-carrying endpoint call decomposes, given the tool exists,
the request carries `html_content`, and the path validation passes. -/
theorem api_update_tool_content_fields (transform : String → String)
    (pathOk : String → Bool) (tdb : ToolDB) (sdb : SnapshotDB) (fs : FS)
    (tool_id : Nat) (tool_data : ToolCreateReq) (ev now : Nat) (tool : Tool)
    (hc final : String)
    (hget : tdb.get_tool tool_id = some tool)
    (hhc : tool_data.html_content = some hc)
    (hpath : pathOk tool.filepath = true)
    (hfinal : final = (if tool_data.tool_type = some ToolType.react then
      generate_react_html transform hc else hc)) :
    (api_update_tool transform pathOk tdb sdb fs tool_id tool_data ev now).autoSnaps
      = (match fs.read tool.filepath with
        | none => ([] : List ToolSnapshot)
        | some current =>
          if current ≠ final then
            match sdb.create_snapshot tool_id current .auto none now with
            | .error _ => []
            | .ok (s, _) => [s]
          else [])
    ∧ (api_update_tool transform pathOk tdb sdb fs tool_id tool_data ev now).fs
      = fs.write tool.filepath final
    ∧ (api_update_tool transform pathOk tdb sdb fs tool_id tool_data ev now).sdb
      = (match fs.read tool.filepath with
        | none => sdb
        | some current =>
          if current ≠ final then
            match sdb.create_snapshot tool_id current .auto none now with
            | .error _ => sdb
            | .ok (_, sdb1) => sdb1
          else sdb)
    ∧ (api_update_tool transform pathOk tdb sdb fs tool_id tool_data ev now).status
      = (match (tdb.update_tool tool_id
          ⟨tool_data.name, tool_data.description, tool_data.tags, tool_data.tool_type⟩
          ev now).1 with
        | .notFound => ApiStatus.notFound
        | .conflict e => ApiStatus.conflict e
        | .updated t => ApiStatus.ok t)
    ∧ (api_update_tool transform pathOk tdb sdb fs tool_id tool_data ev now).tdb
      = (tdb.update_tool tool_id
          ⟨tool_data.name, tool_data.description, tool_data.tags, tool_data.tool_type⟩
          ev now).2 := by
  subst hfinal
  simp only [api_update_tool, hget, hhc, hpath, Bool.not_true, Bool.false_eq_true,
    if_false]
  rcases hu : tdb.update_tool tool_id
      ⟨tool_data.name, tool_data.description, tool_data.tags, tool_data.tool_type⟩
      ev now with ⟨res, tdb1⟩
  cases res <;> simp only [hu] <;>
    exact ⟨snapStep_snd _ _ _ _ _, trivial, snapStep_fst _ _ _ _ _, trivial, trivial⟩

theorem utf8Len_oversize : utf8Len oversizePayload = MAX_CONTENT_SIZE_BYTES + 1 := by
  show ((List.replicate (MAX_CONTENT_SIZE_BYTES + 1) (Char.ofNat 97)).map Char.utf8Size).sum = _
  rw [List.map_replicate, show (Char.ofNat 97).utf8Size = 1 from rfl,
    List.sum_replicate, smul_eq_mul, Nat.mul_one]

theorem oversize_ne_x : oversizePayload ≠ "x" := by
  intro h
  have h2 := congrArg utf8Len h
  rw [utf8Len_oversize, show utf8Len "x" = 1 from rfl] at h2
  have h3 : MAX_CONTENT_SIZE_BYTES = 10 * 1024 * 1024 := rfl
  omega

/-- C4 (amended): for a content update of an existing tool whose file is
readable: if the new payload (after any template wrapping) is identical to
the current file content, zero AUTO snapshots are created; if it differs
*and the prior content is within `MAX_CONTENT_SIZE_BYTES`*, exactly one AUTO
snapshot is created and its payload is the prior (pre-update) file
content. -/
theorem C4_conditional_auto_snapshot (transform : String → String)
    (pathOk : String → Bool) (tdb : ToolDB) (sdb : SnapshotDB) (fs : FS)
    (tool_id : Nat) (tool_data : ToolCreateReq) (ev now : Nat) (tool : Tool)
    (hc current final : String)
    (hget : tdb.get_tool tool_id = some tool)
    (hhc : tool_data.html_content = some hc)
    (hpath : pathOk tool.filepath = true)
    (hread : fs.read tool.filepath = some current)
    (hfinal : final = (if tool_data.tool_type = some ToolType.react then
      generate_react_html transform hc else hc)) :
    (current = final →
      (api_update_tool transform pathOk tdb sdb fs tool_id tool_data ev now).autoSnaps = [])
    ∧ (current ≠ final → utf8Len current ≤ MAX_CONTENT_SIZE_BYTES →
      (api_update_tool transform pathOk tdb sdb fs tool_id tool_data ev now).autoSnaps
        = [newSnap sdb tool_id current .auto none now]) := by
  obtain ⟨ha, -, -, -, -⟩ := api_update_tool_content_fields transform pathOk tdb sdb fs
    tool_id tool_data ev now tool hc final hget hhc hpath hfinal
  simp only [hread] at ha
  constructor
  · intro heq
    rw [ha, if_neg (not_not_intro heq)]
  · intro hne hsize
    rw [ha, if_pos hne, create_snapshot_ok sdb tool_id current .auto none now (by omega)]

/-- Witness for C4: prior content `"a"`, new payload `"x"`: exactly one AUTO
snapshot holding `"a"` is created; with new payload `"a"` none is. -/
theorem C4_conditional_auto_snapshot_witness :
    (api_update_tool (fun s => s) (fun _ => true)
        ⟨[⟨1, "t", none, [], "p", .html, 1, 0, 0⟩]⟩ SnapshotDB.empty
        ⟨[("p", "a")]⟩ 1 ⟨none, none, none, none, some "x"⟩ 1 3).autoSnaps
      = [newSnap SnapshotDB.empty 1 "a" .auto none 3]
    ∧ (api_update_tool (fun s => s) (fun _ => true)
        ⟨[⟨1, "t", none, [], "p", .html, 1, 0, 0⟩]⟩ SnapshotDB.empty
        ⟨[("p", "a")]⟩ 1 ⟨none, none, none, none, some "a"⟩ 1 3).autoSnaps = [] :=
  ⟨(C4_conditional_auto_snapshot (fun s => s) (fun _ => true)
      ⟨[⟨1, "t", none, [], "p", .html, 1, 0, 0⟩]⟩ SnapshotDB.empty
      ⟨[("p", "a")]⟩ 1 ⟨none, none, none, none, some "x"⟩ 1 3
      ⟨1, "t", none, [], "p", .html, 1, 0, 0⟩ "x" "a" "x"
      (by decide) (by decide) (by decide) (by decide) (by decide)).2
      (by decide) (by decide),
    (C4_conditional_auto_snapshot (fun s => s) (fun _ => true)
      ⟨[⟨1, "t", none, [], "p", .html, 1, 0, 0⟩]⟩ SnapshotDB.empty
      ⟨[("p", "a")]⟩ 1 ⟨none, none, none, none, some "a"⟩ 1 3
      ⟨1, "t", none, [], "p", .html, 1, 0, 0⟩ "a" "a" "a"
      (by decide) (by decide) (by decide) (by decide) (by decide)).1
      (by decide)⟩

/-- Counterexample to C4 as stated: the tool's file is readable and its
content (10 MiB + 1 of `a`) differs from the new payload `"x"`, yet zero
AUTO snapshots are created — `create_snapshot` rejects the oversize prior
content and the endpoint swallows the error. -/
theorem C4_counterexample :
    oversizePayload ≠ "x"
    ∧ FS.read ⟨[("p", oversizePayload)]⟩ "p" = some oversizePayload
    ∧ (api_update_tool (fun s => s) (fun _ => true)
        ⟨[⟨1, "t", none, [], "p", .html, 1, 0, 0⟩]⟩ SnapshotDB.empty
        ⟨[("p", oversizePayload)]⟩ 1 ⟨none, none, none, none, some "x"⟩ 1 3).autoSnaps
      = [] := by
  refine ⟨oversize_ne_x, rfl, ?_⟩
  obtain ⟨ha, -, -, -, -⟩ := api_update_tool_content_fields (fun s => s) (fun _ => true)
    ⟨[⟨1, "t", none, [], "p", .html, 1, 0, 0⟩]⟩ SnapshotDB.empty
    ⟨[("p", oversizePayload)]⟩ 1 ⟨none, none, none, none, some "x"⟩ 1 3
    ⟨1, "t", none, [], "p", .html, 1, 0, 0⟩ "x" "x"
    (by decide) rfl rfl rfl
  have hread : FS.read ⟨[("p", oversizePayload)]⟩ "p" = some oversizePayload := rfl
  simp only [hread] at ha
  rw [ha, if_pos oversize_ne_x,
    create_snapshot_err SnapshotDB.empty 1 oversizePayload .auto none 3
      (by rw [utf8Len_oversize]; omega)]

/-- C5: snapshot failure never blocks the primary write.  If reading the
current file fails because it does not exist, the snapshot step is skipped
(zero AUTO snapshots) and the update proceeds: the new payload is written
and the metadata step runs.  If the prior content differs but exceeds the
size limit, the `ValueError` is swallowed (zero AUTO snapshots, snapshot
table untouched) and the new payload is still written. -/
theorem C5_snapshot_failure_not_blocking (transform : String → String)
    (pathOk : String → Bool) (tdb : ToolDB) (sdb : SnapshotDB) (fs : FS)
    (tool_id : Nat) (tool_data : ToolCreateReq) (ev now : Nat) (tool : Tool)
    (hc final : String)
    (hget : tdb.get_tool tool_id = some tool)
    (hhc : tool_data.html_content = some hc)
    (hpath : pathOk tool.filepath = true)
    (hfinal : final = (if tool_data.tool_type = some ToolType.react then
      generate_react_html transform hc else hc)) :
    (fs.read tool.filepath = none →
      (api_update_tool transform pathOk tdb sdb fs tool_id tool_data ev now).autoSnaps = []
      ∧ (api_update_tool transform pathOk tdb sdb fs tool_id tool_data ev now).fs
        = fs.write tool.filepath final
      ∧ (api_update_tool transform pathOk tdb sdb fs tool_id tool_data ev now).tdb
        = (tdb.update_tool tool_id
            ⟨tool_data.name, tool_data.description, tool_data.tags, tool_data.tool_type⟩
            ev now).2)
    ∧ (∀ current, fs.read tool.filepath = some current → current ≠ final →
      utf8Len current > MAX_CONTENT_SIZE_BYTES →
      (api_update_tool transform pathOk tdb sdb fs tool_id tool_data ev now).autoSnaps = []
      ∧ (api_update_tool transform pathOk tdb sdb fs tool_id tool_data ev now).sdb = sdb
      ∧ (api_update_tool transform pathOk tdb sdb fs tool_id tool_data ev now).fs
        = fs.write tool.filepath final
      ∧ (api_update_tool transform pathOk tdb sdb fs tool_id tool_data ev now).tdb
        = (tdb.update_tool tool_id
            ⟨tool_data.name, tool_data.description, tool_data.tags, tool_data.tool_type⟩
            ev now).2) := by
  obtain ⟨ha, hfs, hsdb, -, htdb⟩ := api_update_tool_content_fields transform pathOk tdb
    sdb fs tool_id tool_data ev now tool hc final hget hhc hpath hfinal
  constructor
  · intro hread
    simp only [hread] at ha hsdb
    exact ⟨ha, hfs, htdb⟩
  · intro current hread hne hbig
    simp only [hread] at ha hsdb
    rw [create_snapshot_err sdb tool_id current .auto none now hbig] at ha hsdb
    rw [if_pos hne] at ha hsdb
    exact ⟨ha, hsdb, hfs, htdb⟩

/-- Witness for C5: a missing file and an oversize prior content both leave
zero AUTO snapshots while the new payload is written. -/
theorem C5_snapshot_failure_not_blocking_witness :
    ((api_update_tool (fun s => s) (fun _ => true)
        ⟨[⟨1, "t", none, [], "p", .html, 1, 0, 0⟩]⟩ SnapshotDB.empty
        ⟨[]⟩ 1 ⟨none, none, none, none, some "x"⟩ 1 3).autoSnaps = []
      ∧ (api_update_tool (fun s => s) (fun _ => true)
        ⟨[⟨1, "t", none, [], "p", .html, 1, 0, 0⟩]⟩ SnapshotDB.empty
        ⟨[]⟩ 1 ⟨none, none, none, none, some "x"⟩ 1 3).fs
        = FS.write ⟨[]⟩ "p" "x"
      ∧ (api_update_tool (fun s => s) (fun _ => true)
        ⟨[⟨1, "t", none, [], "p", .html, 1, 0, 0⟩]⟩ SnapshotDB.empty
        ⟨[]⟩ 1 ⟨none, none, none, none, some "x"⟩ 1 3).tdb
        = (ToolDB.update_tool ⟨[⟨1, "t", none, [], "p", .html, 1, 0, 0⟩]⟩ 1
            ⟨none, none, none, none⟩ 1 3).2)
    ∧ ((api_update_tool (fun s => s) (fun _ => true)
        ⟨[⟨1, "t", none, [], "p", .html, 1, 0, 0⟩]⟩ SnapshotDB.empty
        ⟨[("p", oversizePayload)]⟩ 1 ⟨none, none, none, none, some "x"⟩ 1 3).autoSnaps = []
      ∧ (api_update_tool (fun s => s) (fun _ => true)
        ⟨[⟨1, "t", none, [], "p", .html, 1, 0, 0⟩]⟩ SnapshotDB.empty
        ⟨[("p", oversizePayload)]⟩ 1 ⟨none, none, none, none, some "x"⟩ 1 3).sdb
        = SnapshotDB.empty
      ∧ (api_update_tool (fun s => s) (fun _ => true)
        ⟨[⟨1, "t", none, [], "p", .html, 1, 0, 0⟩]⟩ SnapshotDB.empty
        ⟨[("p", oversizePayload)]⟩ 1 ⟨none, none, none, none, some "x"⟩ 1 3).fs
        = FS.write ⟨[("p", oversizePayload)]⟩ "p" "x"
      ∧ (api_update_tool (fun s => s) (fun _ => true)
        ⟨[⟨1, "t", none, [], "p", .html, 1, 0, 0⟩]⟩ SnapshotDB.empty
        ⟨[("p", oversizePayload)]⟩ 1 ⟨none, none, none, none, some "x"⟩ 1 3).tdb
        = (ToolDB.update_tool ⟨[⟨1, "t", none, [], "p", .html, 1, 0, 0⟩]⟩ 1
            ⟨none, none, none, none⟩ 1 3).2) :=
  ⟨(C5_snapshot_failure_not_blocking (fun s => s) (fun _ => true)
      ⟨[⟨1, "t", none, [], "p", .html, 1, 0, 0⟩]⟩ SnapshotDB.empty ⟨[]⟩ 1
      ⟨none, none, none, none, some "x"⟩ 1 3
      ⟨1, "t", none, [], "p", .html, 1, 0, 0⟩ "x" "x"
      (by decide) rfl rfl rfl).1 rfl,
    (C5_snapshot_failure_not_blocking (fun s => s) (fun _ => true)
      ⟨[⟨1, "t", none, [], "p", .html, 1, 0, 0⟩]⟩ SnapshotDB.empty
      ⟨[("p", oversizePayload)]⟩ 1 ⟨none, none, none, none, some "x"⟩ 1 3
      ⟨1, "t", none, [], "p", .html, 1, 0, 0⟩ "x" "x"
      (by decide) rfl rfl rfl).2 oversizePayload rfl oversize_ne_x
      (by rw [utf8Len_oversize]; omega)⟩

/-- A successful `update_tool` on an existing row produces exactly the
`updatedTool` mutation of that row, and consumes its stored version. -/
theorem update_tool_updated (db : ToolDB) (tool_id : Nat) (u : ToolUpdateData)
    (ev now : Nat) (t2 : Tool) (db2 : ToolDB) (tool : Tool)
    (hget : db.get_tool tool_id = some tool)
    (h : db.update_tool tool_id u ev now = (.updated t2, db2)) :
    t2 = updatedTool tool u now ∧ tool.version = ev := by
  simp only [ToolDB.update_tool, hget] at h
  by_cases hv : tool.version ≠ ev
  · rw [if_pos hv] at h
    exact absurd (congrArg Prod.fst h) (by simp)
  · rw [if_neg hv] at h
    rw [Prod.mk.injEq] at h
    exact ⟨(UpdateResult.updated.inj h.1).symm, not_ne_iff.mp hv⟩

/-- An endpoint call can only answer 200 with tool `t` if the repository
update returned `.updated t` (in either the metadata-only or the
content-carrying branch). -/
theorem api_status_ok_of_updated (transform : String → String)
    (pathOk : String → Bool) (tdb : ToolDB) (sdb : SnapshotDB) (fs : FS)
    (tool_id : Nat) (tool_data : ToolCreateReq) (ev now : Nat) (t : Tool)
    (h : (api_update_tool transform pathOk tdb sdb fs tool_id tool_data ev now).status
      = .ok t) :
    (tdb.update_tool tool_id
      ⟨tool_data.name, tool_data.description, tool_data.tags, tool_data.tool_type⟩
      ev now).1 = .updated t := by
  unfold api_update_tool at h
  cases hg : tdb.get_tool tool_id with
  | none =>
    simp only [hg] at h
    exact absurd h (by simp)
  | some tool =>
    simp only [hg] at h
    cases hhc : tool_data.html_content with
    | none =>
      simp only [hhc] at h
      rcases hu : tdb.update_tool tool_id
          ⟨tool_data.name, tool_data.description, tool_data.tags, tool_data.tool_type⟩
          ev now with ⟨res, tdb1⟩
      rw [hu] at h
      cases res with
      | notFound => exact absurd h (by simp)
      | conflict e => exact absurd h (by simp)
      | updated t1 =>
        have ht1 : t1 = t := ApiStatus.ok.inj h
        show UpdateResult.updated t1 = UpdateResult.updated t
        rw [ht1]
    | some hc =>
      simp only [hhc] at h
      cases hp : pathOk tool.filepath with
      | false =>
        simp only [hp, Bool.not_false, if_pos] at h
        exact absurd h (by simp)
      | true =>
        simp only [hp, Bool.not_true, Bool.false_eq_true, if_false] at h
        rcases hu : tdb.update_tool tool_id
            ⟨tool_data.name, tool_data.description, tool_data.tags, tool_data.tool_type⟩
            ev now with ⟨res, tdb1⟩
        rw [hu] at h
        cases res with
        | notFound => exact absurd h (by simp)
        | conflict e => exact absurd h (by simp)
        | updated t1 =>
          have ht1 : t1 = t := ApiStatus.ok.inj h
          show UpdateResult.updated t1 = UpdateResult.updated t
          rw [ht1]

/-- C2: the version counter starts at 1 when the entity is created, and every
successful metadata-affecting update increments it by exactly 1 and sets
`updated_at` to the current time — both when calling the repository guard
directly and when the update is triggered through the content-update
endpoint. -/
theorem C2_version_counter (id : Nat) (name : String) (description : Option String)
    (tags : List String) (filepath : String) (tool_type : ToolType) (created : Nat) :
    (mkCreatedTool id name description tags filepath tool_type created).version = 1
    ∧ (∀ (db : ToolDB) (tool_id : Nat) (u : ToolUpdateData) (ev now : Nat)
        (t2 : Tool) (db2 : ToolDB) (tool : Tool),
      db.get_tool tool_id = some tool →
      db.update_tool tool_id u ev now = (.updated t2, db2) →
      t2.version = tool.version + 1 ∧ t2.updated_at = now)
    ∧ (∀ (transform : String → String) (pathOk : String → Bool) (tdb : ToolDB)
        (sdb : SnapshotDB) (fs : FS) (tool_id : Nat) (tool_data : ToolCreateReq)
        (ev now : Nat) (t : Tool) (tool : Tool),
      tdb.get_tool tool_id = some tool →
      (api_update_tool transform pathOk tdb sdb fs tool_id tool_data ev now).status
        = .ok t →
      t.version = tool.version + 1 ∧ t.updated_at = now) := by
  refine ⟨rfl, ?_, ?_⟩
  · intro db tool_id u ev now t2 db2 tool hget h
    obtain ⟨ht2, -⟩ := update_tool_updated db tool_id u ev now t2 db2 tool hget h
    rw [ht2]
    exact ⟨rfl, rfl⟩
  · intro transform pathOk tdb sdb fs tool_id tool_data ev now t tool hget h
    have hres := api_status_ok_of_updated transform pathOk tdb sdb fs tool_id
      tool_data ev now t h
    rcases hu : tdb.update_tool tool_id
        ⟨tool_data.name, tool_data.description, tool_data.tags, tool_data.tool_type⟩
        ev now with ⟨res, tdb1⟩
    rw [hu] at hres
    have hres2 : res = .updated t := hres
    obtain ⟨ht2, -⟩ := update_tool_updated tdb tool_id
      ⟨tool_data.name, tool_data.description, tool_data.tags, tool_data.tool_type⟩
      ev now t tdb1 tool hget (by rw [hu, hres2])
    rw [ht2]
    exact ⟨rfl, rfl⟩

/-- Witness for C2: a fresh tool has version 1; a successful repository
update and a successful endpoint update both move version 1 to 2 and stamp
`updated_at`. -/
theorem C2_version_counter_witness :
    (mkCreatedTool 1 "t" none [] "p" .html 0).version = 1
    ∧ ((⟨1, "t", none, [], "p", .html, 2, 0, 5⟩ : Tool).version
        = (⟨1, "t", none, [], "p", .html, 1, 0, 0⟩ : Tool).version + 1
      ∧ (⟨1, "t", none, [], "p", .html, 2, 0, 5⟩ : Tool).updated_at = 5) :=
  ⟨(C2_version_counter 1 "t" none [] "p" .html 0).1,
    (C2_version_counter 1 "t" none [] "p" .html 0).2.1
      ⟨[⟨1, "t", none, [], "p", .html, 1, 0, 0⟩]⟩ 1 ⟨none, none, none, none⟩ 1 5
      ⟨1, "t", none, [], "p", .html, 2, 0, 5⟩
      ⟨[⟨1, "t", none, [], "p", .html, 2, 0, 5⟩]⟩
      ⟨1, "t", none, [], "p", .html, 1, 0, 0⟩
      (by decide) (by decide)⟩

/-- C7 (amended): on normal return the target holds exactly the new content
with the requested permission bits and no temp file remains; on an exception
at any point the target's prior content is untouched, and the temp file is
removed provided the cleanup unlink itself succeeds; on a hard crash any
time before the rename the prior content is likewise untouched (though a
temp file may remain). -/
theorem C7_atomic_write_contract (target : Option (String × Nat))
    (content : String) (mode : Nat) (sc : AwfScenario) :
    ((atomic_write_file target content mode sc).exit = .normal →
      (atomic_write_file target content mode sc).target = some (content, mode)
      ∧ (atomic_write_file target content mode sc).tempRemains = false)
    ∧ ((atomic_write_file target content mode sc).exit = .raised →
      (atomic_write_file target content mode sc).target = target
      ∧ (unlinkSucceeded sc = true →
        (atomic_write_file target content mode sc).tempRemains = false))
    ∧ ((atomic_write_file target content mode sc).exit = .crashed →
      sc ≠ .crashAfterReplace →
      (atomic_write_file target content mode sc).target = target) := by
  cases sc <;> simp [atomic_write_file, unlinkSucceeded]

/-- Witness for C7: a normal run installs the new content and mode; a failed
rename with successful cleanup leaves the old file and no temp. -/
theorem C7_atomic_write_contract_witness :
    ((atomic_write_file (some ("old", 420)) "new" 420 .success).target
      = some ("new", 420)
      ∧ (atomic_write_file (some ("old", 420)) "new" 420 .success).tempRemains = false)
    ∧ ((atomic_write_file (some ("old", 420)) "new" 420 (.raiseReplace true)).target
      = some ("old", 420)
      ∧ (atomic_write_file (some ("old", 420)) "new" 420
        (.raiseReplace true)).tempRemains = false) :=
  ⟨(C7_atomic_write_contract (some ("old", 420)) "new" 420 .success).1 rfl,
    ⟨((C7_atomic_write_contract (some ("old", 420)) "new" 420 (.raiseReplace true)).2.1
        rfl).1,
      ((C7_atomic_write_contract (some ("old", 420)) "new" 420 (.raiseReplace true)).2.1
        rfl).2 rfl⟩⟩

/-- Counterexample to C7 as stated: in the claim's own scenario — a crash
between the temp-file write and the rename — the exception handler never
runs, so while the target keeps its prior content, the temporary file is
NOT removed. -/
theorem C7_counterexample :
    (atomic_write_file (some ("old", 420)) "new" 420 .crashAfterWrite).exit = .crashed
    ∧ (atomic_write_file (some ("old", 420)) "new" 420 .crashAfterWrite).target
      = some ("old", 420)
    ∧ (atomic_write_file (some ("old", 420)) "new" 420 .crashAfterWrite).tempRemains
      = true := by
  decide

/-- The empty pattern occurs in every string. -/
theorem containsAux_nil (l : List Char) : containsAux [] l = true := by
  induction l with
  | nil => rfl
  | cons c cs ih =>
    show (List.isPrefixOf [] (c :: cs) || containsAux [] cs) = true
    rw [ih, Bool.or_true]

/-- An occurrence in `x` is an occurrence in `x ++ y`. -/
theorem containsAux_append_left (pat x y : List Char)
    (h : containsAux pat x = true) : containsAux pat (x ++ y) = true := by
  induction x with
  | nil =>
    cases pat with
    | nil =>
      rw [List.nil_append]
      exact containsAux_nil y
    | cons a as => exact absurd h (by simp [containsAux])
  | cons c cs ih =>
    rw [List.cons_append]
    show (List.isPrefixOf pat (c :: (cs ++ y)) || containsAux pat (cs ++ y)) = true
    have h2 : (List.isPrefixOf pat (c :: cs) || containsAux pat cs) = true := h
    rcases Bool.or_eq_true_iff.mp h2 with h3 | h3
    · have hp : pat <+: (c :: cs) := List.isPrefixOf_iff_prefix.mp h3
      have hp2 : pat <+: (c :: (cs ++ y)) := by
        have hpp : (c :: cs) <+: ((c :: cs) ++ y) := List.prefix_append _ _
        rw [List.cons_append] at hpp
        exact hp.trans hpp
      rw [List.isPrefixOf_iff_prefix.mpr hp2, Bool.true_or]
    · rw [ih h3, Bool.or_true]

theorem cdn_in_reactTemplatePrefix :
    strContains reactTemplatePrefix "react.production.min.js" = true := by
  decide

/-- Every wrapped document contains the React CDN marker (it sits in the
fixed prefix), whatever the transform does. -/
theorem generate_contains_cdn (transform : String → String) (p : String) :
    strContains (generate_react_html transform p) "react.production.min.js" = true := by
  show containsAux ("react.production.min.js").data
    ((reactTemplatePrefix ++ transform p ++ reactTemplateSuffix).data) = true
  rw [String.data_append, String.data_append]
  exact containsAux_append_left _ _ _
    (containsAux_append_left _ _ _ cdn_in_reactTemplatePrefix)

/-- Wrapping a payload that lacks the CDN marker never returns the payload
byte-for-byte. -/
theorem generate_ne_payload (transform : String → String) (p : String)
    (h : strContains p "react.production.min.js" = false) :
    generate_react_html transform p ≠ p := by
  intro he
  have h2 := generate_contains_cdn transform p
  rw [he, h] at h2
  exact Bool.false_ne_true h2

/-- How one restore call decomposes, given tool and snapshot exist, the
path checks pass, and the file is readable. -/
theorem restore_snapshot_fields (transform : String → String)
    (realOk : String → Bool) (tdb : ToolDB) (sdb : SnapshotDB) (fs : FS)
    (tool_id snapshot_id now : Nat) (tool : Tool) (snapshot : ToolSnapshot)
    (current ctw : String)
    (hget : tdb.get_tool tool_id = some tool)
    (hsnap : sdb.get_snapshot tool_id snapshot_id = some snapshot)
    (hsus : filepathSuspicious tool.filepath = false)
    (hreal : realOk tool.filepath = true)
    (hread : fs.read tool.filepath = some current)
    (hctw : ctw = (if tool.tool_type = ToolType.react
        ∧ strContains snapshot.html_content "react.production.min.js" = false then
      generate_react_html transform snapshot.html_content
      else snapshot.html_content)) :
    restore_snapshot transform realOk tdb sdb fs tool_id snapshot_id now
      = (match sdb.create_snapshot tool_id current .auto (some "復元前の自動保存") now with
        | .error _ => ⟨.ok tool, sdb, fs.write tool.filepath ctw, [],
            [(tool.filepath, ctw)]⟩
        | .ok (s, sdb1) => ⟨.ok tool, sdb1, fs.write tool.filepath ctw, [s],
            [(tool.filepath, ctw)]⟩) := by
  subst hctw
  simp only [restore_snapshot, hget, hsnap, hsus, hreal, hread, Bool.not_true,
    Bool.false_eq_true, if_false]

/-- C6 (amended): for an existing tool and a snapshot belonging to it (valid
path, readable file), the restore writes the restored content to the tool's
file with a single plain truncate-and-write — not the atomic
temp-file-and-rename helper — and only after that write creates one AUTO
snapshot holding the pre-restore file content, as a best-effort step: when
the pre-restore content exceeds the size limit the snapshot is skipped and
the restore still succeeds with the file written. -/
theorem C6_restore_write_then_snapshot (transform : String → String)
    (realOk : String → Bool) (tdb : ToolDB) (sdb : SnapshotDB) (fs : FS)
    (tool_id snapshot_id now : Nat) (tool : Tool) (snapshot : ToolSnapshot)
    (current ctw : String)
    (hget : tdb.get_tool tool_id = some tool)
    (hsnap : sdb.get_snapshot tool_id snapshot_id = some snapshot)
    (hsus : filepathSuspicious tool.filepath = false)
    (hreal : realOk tool.filepath = true)
    (hread : fs.read tool.filepath = some current)
    (hctw : ctw = (if tool.tool_type = ToolType.react
        ∧ strContains snapshot.html_content "react.production.min.js" = false then
      generate_react_html transform snapshot.html_content
      else snapshot.html_content)) :
    (restore_snapshot transform realOk tdb sdb fs tool_id snapshot_id now).plainWrites
      = [(tool.filepath, ctw)]
    ∧ (restore_snapshot transform realOk tdb sdb fs tool_id snapshot_id now).fs
      = fs.write tool.filepath ctw
    ∧ (utf8Len current ≤ MAX_CONTENT_SIZE_BYTES →
      (restore_snapshot transform realOk tdb sdb fs tool_id snapshot_id now).autoSnaps
        = [newSnap sdb tool_id current .auto (some "復元前の自動保存") now]
      ∧ (restore_snapshot transform realOk tdb sdb fs tool_id snapshot_id now).status
        = .ok tool)
    ∧ (utf8Len current > MAX_CONTENT_SIZE_BYTES →
      (restore_snapshot transform realOk tdb sdb fs tool_id snapshot_id now).autoSnaps = []
      ∧ (restore_snapshot transform realOk tdb sdb fs tool_id snapshot_id now).sdb = sdb
      ∧ (restore_snapshot transform realOk tdb sdb fs tool_id snapshot_id now).status
        = .ok tool) := by
  have hfields := restore_snapshot_fields transform realOk tdb sdb fs tool_id
    snapshot_id now tool snapshot current ctw hget hsnap hsus hreal hread hctw
  refine ⟨?_, ?_, ?_, ?_⟩
  · rw [hfields]
    rcases sdb.create_snapshot tool_id current .auto (some "復元前の自動保存") now with
      e | ⟨s, d⟩ <;> rfl
  · rw [hfields]
    rcases sdb.create_snapshot tool_id current .auto (some "復元前の自動保存") now with
      e | ⟨s, d⟩ <;> rfl
  · intro hsize
    rw [hfields,
      create_snapshot_ok sdb tool_id current .auto (some "復元前の自動保存") now (by omega)]
    exact ⟨rfl, rfl⟩
  · intro hsize
    rw [hfields,
      create_snapshot_err sdb tool_id current .auto (some "復元前の自動保存") now hsize]
    exact ⟨rfl, rfl, rfl⟩

/-- Witness for C6: restoring snapshot 1 (payload `"<p>A</p>"`) of tool 1
over current content `"<p>B</p>"` performs the plain write and creates one
AUTO snapshot of `"<p>B</p>"`. -/
theorem C6_restore_write_then_snapshot_witness :
    (restore_snapshot (fun s => s) (fun _ => true)
        ⟨[⟨1, "t", none, [], "static/tools/x/index.html", .html, 1, 0, 0⟩]⟩
        ⟨[⟨1, 1, "<p>A</p>", .manual, none, 0⟩], 2⟩
        ⟨[("static/tools/x/index.html", "<p>B</p>")]⟩ 1 1 5).plainWrites
      = [("static/tools/x/index.html", "<p>A</p>")]
    ∧ (restore_snapshot (fun s => s) (fun _ => true)
        ⟨[⟨1, "t", none, [], "static/tools/x/index.html", .html, 1, 0, 0⟩]⟩
        ⟨[⟨1, 1, "<p>A</p>", .manual, none, 0⟩], 2⟩
        ⟨[("static/tools/x/index.html", "<p>B</p>")]⟩ 1 1 5).autoSnaps
      = [newSnap ⟨[⟨1, 1, "<p>A</p>", .manual, none, 0⟩], 2⟩ 1 "<p>B</p>" .auto
          (some "復元前の自動保存") 5] :=
  ⟨(C6_restore_write_then_snapshot (fun s => s) (fun _ => true)
      ⟨[⟨1, "t", none, [], "static/tools/x/index.html", .html, 1, 0, 0⟩]⟩
      ⟨[⟨1, 1, "<p>A</p>", .manual, none, 0⟩], 2⟩
      ⟨[("static/tools/x/index.html", "<p>B</p>")]⟩ 1 1 5
      ⟨1, "t", none, [], "static/tools/x/index.html", .html, 1, 0, 0⟩
      ⟨1, 1, "<p>A</p>", .manual, none, 0⟩ "<p>B</p>" "<p>A</p>"
      (by decide) (by decide) (by decide) rfl (by decide) (by decide)).1,
    ((C6_restore_write_then_snapshot (fun s => s) (fun _ => true)
      ⟨[⟨1, "t", none, [], "static/tools/x/index.html", .html, 1, 0, 0⟩]⟩
      ⟨[⟨1, 1, "<p>A</p>", .manual, none, 0⟩], 2⟩
      ⟨[("static/tools/x/index.html", "<p>B</p>")]⟩ 1 1 5
      ⟨1, "t", none, [], "static/tools/x/index.html", .html, 1, 0, 0⟩
      ⟨1, 1, "<p>A</p>", .manual, none, 0⟩ "<p>B</p>" "<p>A</p>"
      (by decide) (by decide) (by decide) rfl (by decide) (by decide)).2.2.1
      (by decide)).1⟩

/-- Counterexample to C6 as stated: the restore path's only file write is a
plain `open(filepath, "w")` truncate-and-write (it never calls the atomic
temp-file-and-rename helper), and such a write interrupted mid-way leaves a
proper prefix of the new content — here the empty file — which is neither
the pre-restore content `"<p>B</p>"` nor the snapshot payload `"<p>A</p>"`,
so the write is not all-or-nothing. -/
theorem C6_counterexample :
    (restore_snapshot (fun s => s) (fun _ => true)
        ⟨[⟨1, "t", none, [], "static/tools/x/index.html", .html, 1, 0, 0⟩]⟩
        ⟨[⟨1, 1, "<p>A</p>", .manual, none, 0⟩], 2⟩
        ⟨[("static/tools/x/index.html", "<p>B</p>")]⟩ 1 1 5).plainWrites
      = [("static/tools/x/index.html", "<p>A</p>")]
    ∧ plainWriteCrash "<p>A</p>" 0 = ""
    ∧ ("" : String) ≠ "<p>B</p>"
    ∧ ("" : String) ≠ "<p>A</p>" := by
  decide

/-- C10: restore does not always write the snapshot payload verbatim — when
the tool's `tool_type` is REACT and the payload lacks the substring
`"react.production.min.js"`, the content written is the payload wrapped by
`generate_react_html` (never byte-for-byte equal to the payload, since the
wrapper's fixed prefix contains that substring); in every other case the
payload is written unchanged. -/
theorem C10_react_rewrap (transform : String → String)
    (realOk : String → Bool) (tdb : ToolDB) (sdb : SnapshotDB) (fs : FS)
    (tool_id snapshot_id now : Nat) (tool : Tool) (snapshot : ToolSnapshot)
    (current : String)
    (hget : tdb.get_tool tool_id = some tool)
    (hsnap : sdb.get_snapshot tool_id snapshot_id = some snapshot)
    (hsus : filepathSuspicious tool.filepath = false)
    (hreal : realOk tool.filepath = true)
    (hread : fs.read tool.filepath = some current) :
    (tool.tool_type = ToolType.react →
      strContains snapshot.html_content "react.production.min.js" = false →
      (restore_snapshot transform realOk tdb sdb fs tool_id snapshot_id now).fs
        = fs.write tool.filepath (generate_react_html transform snapshot.html_content)
      ∧ generate_react_html transform snapshot.html_content ≠ snapshot.html_content)
    ∧ (¬(tool.tool_type = ToolType.react
        ∧ strContains snapshot.html_content "react.production.min.js" = false) →
      (restore_snapshot transform realOk tdb sdb fs tool_id snapshot_id now).fs
        = fs.write tool.filepath snapshot.html_content) := by
  constructor
  · intro hr hcdn
    have hfields := restore_snapshot_fields transform realOk tdb sdb fs tool_id
      snapshot_id now tool snapshot current
      (generate_react_html transform snapshot.html_content)
      hget hsnap hsus hreal hread (by rw [if_pos ⟨hr, hcdn⟩])
    refine ⟨?_, generate_ne_payload transform snapshot.html_content hcdn⟩
    rw [hfields]
    rcases sdb.create_snapshot tool_id current .auto (some "復元前の自動保存") now with
      e | ⟨s, d⟩ <;> rfl
  · intro hnot
    have hfields := restore_snapshot_fields transform realOk tdb sdb fs tool_id
      snapshot_id now tool snapshot current snapshot.html_content
      hget hsnap hsus hreal hread (by rw [if_neg hnot])
    rw [hfields]
    rcases sdb.create_snapshot tool_id current .auto (some "復元前の自動保存") now with
      e | ⟨s, d⟩ <;> rfl

/-- Witness for C10: a REACT tool whose snapshot payload `"x"` lacks the CDN
marker gets the wrapped document written, which differs from `"x"`; an HTML
tool gets its payload written verbatim. -/
theorem C10_react_rewrap_witness :
    ((restore_snapshot (fun s => s) (fun _ => true)
        ⟨[⟨1, "t", none, [], "static/tools/x/index.html", .react, 1, 0, 0⟩]⟩
        ⟨[⟨1, 1, "x", .manual, none, 0⟩], 2⟩
        ⟨[("static/tools/x/index.html", "<p>B</p>")]⟩ 1 1 5).fs
      = FS.write ⟨[("static/tools/x/index.html", "<p>B</p>")]⟩
          "static/tools/x/index.html" (generate_react_html (fun s => s) "x")
      ∧ generate_react_html (fun s => s) "x" ≠ "x")
    ∧ (restore_snapshot (fun s => s) (fun _ => true)
        ⟨[⟨1, "t", none, [], "static/tools/x/index.html", .html, 1, 0, 0⟩]⟩
        ⟨[⟨1, 1, "x", .manual, none, 0⟩], 2⟩
        ⟨[("static/tools/x/index.html", "<p>B</p>")]⟩ 1 1 5).fs
      = FS.write ⟨[("static/tools/x/index.html", "<p>B</p>")]⟩
          "static/tools/x/index.html" "x" :=
  ⟨(C10_react_rewrap (fun s => s) (fun _ => true)
      ⟨[⟨1, "t", none, [], "static/tools/x/index.html", .react, 1, 0, 0⟩]⟩
      ⟨[⟨1, 1, "x", .manual, none, 0⟩], 2⟩
      ⟨[("static/tools/x/index.html", "<p>B</p>")]⟩ 1 1 5
      ⟨1, "t", none, [], "static/tools/x/index.html", .react, 1, 0, 0⟩
      ⟨1, 1, "x", .manual, none, 0⟩ "<p>B</p>"
      (by decide) (by decide) (by decide) rfl (by decide)).1 rfl (by decide),
    (C10_react_rewrap (fun s => s) (fun _ => true)
      ⟨[⟨1, "t", none, [], "static/tools/x/index.html", .html, 1, 0, 0⟩]⟩
      ⟨[⟨1, 1, "x", .manual, none, 0⟩], 2⟩
      ⟨[("static/tools/x/index.html", "<p>B</p>")]⟩ 1 1 5
      ⟨1, "t", none, [], "static/tools/x/index.html", .html, 1, 0, 0⟩
      ⟨1, 1, "x", .manual, none, 0⟩ "<p>B</p>"
      (by decide) (by decide) (by decide) rfl (by decide)).2
      (by
        intro hx
        exact absurd hx.1 (by decide))⟩

/-- Witness for C3: tool 1 at version 1 is updated successfully; replaying
`expected_version = 1` is rejected with current version 2. -/
theorem C3_stale_version_rejected_witness :
    ToolDB.update_tool ⟨[⟨1, "t", none, [], "p", .html, 2, 0, 5⟩]⟩ 1
        ⟨none, none, none, none⟩ 1 7
      = (.conflict ⟨2, 1⟩, ⟨[⟨1, "t", none, [], "p", .html, 2, 0, 5⟩]⟩) :=
  (C3_stale_version_rejected ⟨[⟨1, "t", none, [], "p", .html, 1, 0, 0⟩]⟩ 1
      ⟨none, none, none, none⟩ 1 5 ⟨1, "t", none, [], "p", .html, 1, 0, 0⟩
      (by decide)).2
    ⟨none, none, none, none⟩ 7 ⟨1, "t", none, [], "p", .html, 2, 0, 5⟩
    ⟨[⟨1, "t", none, [], "p", .html, 2, 0, 5⟩]⟩ (by decide)

end HtmlToolManager
